import Mathlib

/-!
Verification development for the realtime whiteboard room coordinator
(final revision of src/server/index.ts together with src/shared.ts).

The server is a per-room Durable Object class `Chat`.  We shallowly embed
its state and its command handlers as pure Lean functions:

* JavaScript `Map`s become association lists that update in place on
  overwrite (JS `Map.set` keeps the insertion position of an existing key)
  and append fresh keys at the end;
* `Set<WebSocket>` becomes an insertion-ordered duplicate-free list of
  connection identifiers (`Nat`);
* `Date.now()` and `crypto.randomUUID()` are passed in as explicit
  parameters (`now`, `fid`) of each event;
* persisted storage (`state.storage`) becomes an association list from a
  structured key type `SKey` to stored values.  The source uses string
  keys "moveview_" ++ id, "drawing_" ++ id and "updateBackground"; the
  three shapes can never collide (distinct literal prefixes), so the
  structured key type is observationally faithful, including the
  prefix-scan and prefix-delete operations;
* outbound effects (socket sends, socket closes, the one-second grace
  delay of `closeRoom`) are returned as an ordered list of `OutEvent`s;
  a broadcast expands into one send per live connection, in connection
  order, so ordering claims are claims about list positions;
* a value that may be the JS `undefined` is an `Option`; interpolating
  `undefined` into a template literal yields the string "undefined",
  mirrored by `jsStr`.
-/

/-- Error payloads (enum `ErrorType` in src/shared.ts; `UPGRADE_REQUIRED`
and `MESSAGE_TOO_LONG` are referenced by the final server revision). -/
inductive ErrorType where
  | MISSING_USER_INFO
  | USER_NOT_FOUND
  | SESSION_NOT_FOUND
  | DRAWING_UPDATE_FAILED
  | ONLY_HOST_CAN_DO
  | ROOM_IS_CLOSED
  | USER_NOT_JOINED
  | INVALID_FORMAT
  | RATE_LIMITED
  | UPGRADE_REQUIRED
  | MESSAGE_TOO_LONG
  deriving DecidableEq, Repr

/-- Message types (enum `MessageType` in src/shared.ts). -/
inductive MessageType where
  | text
  | system
  | file
  deriving DecidableEq, Repr

/-- The value found at `data.content.content` of a chat frame: either a
JS string or some non-string JSON value (number, object, ...). -/
inductive ChatVal where
  | str (s : String)
  | nonString
  deriving DecidableEq, Repr

/-- The `content` object of an inbound frame, with every field the
handlers ever destructure.  A missing field is `none` (JS `undefined`).
`chatContent` embeds the nested `content.content` field of chat frames. -/
structure Content where
  userId : Option String := none
  userName : Option String := none
  role : Option String := none
  fileName : Option String := none
  protocolVersion : Option Int := none
  platform : Option String := none
  appVersion : Option String := none
  chatContent : Option ChatVal := none
  id : Option String := none
  model : Option String := none
  action : Option String := none
  deriving DecidableEq, Repr

/-- An inbound frame after JSON parsing: the envelope
`(type, content?, broadcast?)`.  A frame whose `type` field is absent or
empty is modelled by `type = ""` (both are falsy in JS, making
`onMessage` throw and answer `INVALID_FORMAT`).  An absent `broadcast`
flag and `broadcast:false` are indistinguishable to the handlers (only
truthiness is tested), so `broadcast` is a `Bool`. -/
structure WSMessage where
  type : String
  content : Option Content := none
  broadcast : Bool := false
  deriving DecidableEq, Repr

/-- A registered participant (interface `UserSession`). -/
structure UserSession where
  userId : String
  userName : String
  role : String
  roomId : String
  protocolVersion : Nat
  platform : Option String := none
  appVersion : Option String := none
  deriving DecidableEq, Repr

/-- A chat-log entry (interface `ChatMessage`). -/
structure ChatMessage where
  id : String
  userId : String
  userName : String
  content : String
  timestamp : Nat
  messageType : MessageType
  deriving DecidableEq, Repr

/-- A persisted move-view / drawing record (interface `Metadata`).
`id` and `model` come straight from the client payload and may be
absent there, hence `Option`. -/
structure Metadata where
  id : Option String
  model : Option String
  timestamp : Nat
  deriving DecidableEq, Repr

/-- Structured persisted-storage keys; see the header comment for why
this is faithful to the string keys of the source. -/
inductive SKey where
  | moveView (id : String)
  | drawing (id : String)
  | background
  deriving DecidableEq, Repr

/-- A persisted value: a `Metadata` record (move-view and drawing keys)
or the raw client content (background key). -/
inductive StoredVal where
  | meta (m : Metadata)
  | raw (c : Content)
  deriving DecidableEq, Repr

/-- One per-subject record of the rate limiter. -/
structure RLRecord where
  count : Nat
  timestamp : Nat
  deriving DecidableEq, Repr

/-- Class `RateLimiter`: fixed-window counters keyed by subject. -/
structure RateLimiter where
  requestCounts : List (String × RLRecord)
  maxRequests : Nat
  windowMs : Nat
  deriving DecidableEq, Repr

/-- Outbound frames the server produces. -/
inductive Frame where
  | errorF (e : ErrorType)
  | chatF (m : ChatMessage)
  | userListF (us : List UserSession)
  | initSetupF (messages : List ChatMessage) (users : List UserSession)
      (fileName : Option String) (roomMinProtocolVersion : Nat)
      (moveModels : List StoredVal) (bgModel : Option StoredVal)
      (drawingModels : List StoredVal)
  | closeRoomNotice
  | clearF
  | updateBackgroundF (c : Content)
  | updateMoveViewF (c : Content)
  | deleteMoveViewF (id : Option String)
  | drawingUpdateF (c : Content)
  deriving DecidableEq, Repr

/-- Ordered observable effects of one event: a send to one socket, a
forced socket close, or the awaited grace delay of `closeRoom`. -/
inductive OutEvent where
  | send (conn : Nat) (f : Frame)
  | close (conn : Nat) (code : Nat) (reason : String)
  | wait (ms : Nat)
  deriving DecidableEq, Repr

/-- The whole mutable state of one `Chat` instance, plus the storage and
alarm owned through `state.storage`. -/
structure RoomState where
  roomId : String
  isRoomClosed : Bool
  fileName : Option String
  roomMinProtocolVersion : Option Nat
  users : List (String × UserSession)
  messages : List ChatMessage
  connections : List Nat
  connectionToUser : List (Nat × String)
  messageLimiter : RateLimiter
  drawingLimiter : RateLimiter
  pendingCleanupAt : Option Nat
  storage : List (SKey × StoredVal)
  alarmTime : Option Nat
  deriving DecidableEq, Repr

/-- Association-list lookup (JS `Map.get`). -/
def mapGet {K V : Type} [DecidableEq K] (m : List (K × V)) (k : K) : Option V :=
  (m.find? (fun p => p.1 = k)).map (·.2)

/-- Association-list write (JS `Map.set`): overwrite in place when the
key exists, append otherwise. -/
def mapSet {K V : Type} [DecidableEq K] (m : List (K × V)) (k : K) (v : V) :
    List (K × V) :=
  if m.any (fun p => p.1 = k) then
    m.map (fun p => if p.1 = k then (k, v) else p)
  else
    m ++ [(k, v)]

/-- Association-list delete (JS `Map.delete`, storage `delete(key)`). -/
def mapDel {K V : Type} [DecidableEq K] (m : List (K × V)) (k : K) :
    List (K × V) :=
  m.filter (fun p => ¬ p.1 = k)

/-- Insertion-ordered set insert (JS `Set.add`). -/
def setAdd (s : List Nat) (c : Nat) : List Nat :=
  if c ∈ s then s else s ++ [c]

/-- Set removal (JS `Set.delete`). -/
def setDel (s : List Nat) (c : Nat) : List Nat :=
  s.filter (fun x => ¬ x = c)

/-- JS template-literal rendering of a possibly-undefined string. -/
def jsStr : Option String → String
  | some s => s
  | none => "undefined"

/-- JS truthiness of a possibly-undefined string field. -/
def truthy : Option String → Bool
  | some s => ¬ s = ""
  | none => false

/-- The single-quote character, written via its code point. -/
def singleQuote : String := String.mk [Char.ofNat 39]

/-- Method `sanitizeContent`: the chained global `String.replace` calls,
in source order (note the source escapes `&` after it has already
introduced ampersands for `<` and `>`). -/
def sanitizeContent (content : String) : String :=
  ((((content.replace "<" "&lt;").replace ">" "&gt;").replace "&" "&amp;").replace
      "\"" "&quot;").replace singleQuote "&#039;"

/-- Method `RateLimiter.isRateLimited`.  Returns the decision (`true`
means rate limited) and the updated limiter.  JS computes
`now - record.timestamp > windowMs` on numbers; within a run
`record.timestamp ≤ now` never matters for the comparison's truth value
under truncated subtraction, because a negative difference and a
truncated zero both fail to exceed the non-negative window. -/
def isRateLimited (rl : RateLimiter) (key : String) (now : Nat) :
    Bool × RateLimiter :=
  match mapGet rl.requestCounts key with
  | none =>
      let rc := mapSet rl.requestCounts key { count := 1, timestamp := now }
      (false, { rl with requestCounts := rc })
  | some record =>
      if now - record.timestamp > rl.windowMs then
        let rc := mapSet rl.requestCounts key { count := 1, timestamp := now }
        (false, { rl with requestCounts := rc })
      else if record.count ≥ rl.maxRequests then
        (true, rl)
      else
        let rc := mapSet rl.requestCounts key
          { count := record.count + 1, timestamp := record.timestamp }
        (false, { rl with requestCounts := rc })

/-- A limiter with no subjects, as constructed in the field initializers
of `Chat` (`new RateLimiter(maxRequests, windowMs)`). -/
def freshLimiter (maxRequests windowMs : Nat) : RateLimiter :=
  { requestCounts := [], maxRequests := maxRequests, windowMs := windowMs }

/-- Method `resolveClientProtocolVersion`: the declared version when it
is a positive integer, else the legacy default 1.  A non-number or
non-integer `protocolVersion` is represented by `none`. -/
def resolveClientProtocolVersion (c : Content) : Nat :=
  match c.protocolVersion with
  | some v => if 0 < v then v.toNat else 1
  | none => 1

/-- Method `resolveClientMeta` (protocol version plus optional platform
and app version strings, which are kept only when they are strings). -/
def resolveClientMeta (c : Content) : Nat × Option String × Option String :=
  (resolveClientProtocolVersion c, c.platform, c.appVersion)

/-- Method `broadcast`: serialize once and send to every current
connection except the excluded one, in connection order. -/
def broadcastFrames (conns : List Nat) (f : Frame) (exclude : Option Nat) :
    List OutEvent :=
  (conns.filter (fun c => ¬ exclude = some c)).map (fun c => OutEvent.send c f)

/-- Prefix scan `storage.list(prefix: moveview_)`: every stored value
whose key is a move-view key.  The real store yields values in key
order; this model yields them in insertion order, which is equivalent
up to permutation and irrelevant to the properties proved here. -/
def listMoveView (st : List (SKey × StoredVal)) : List StoredVal :=
  (st.filter (fun p => match p.1 with | SKey.moveView _ => true | _ => false)).map (·.2)

/-- Prefix scan `storage.list(prefix: drawing_)`. -/
def listDrawing (st : List (SKey × StoredVal)) : List StoredVal :=
  (st.filter (fun p => match p.1 with | SKey.drawing _ => true | _ => false)).map (·.2)

/-- Prefix delete `storage.delete(prefix: drawing_)`. -/
def deleteDrawingKeys (st : List (SKey × StoredVal)) : List (SKey × StoredVal) :=
  st.filter (fun p => match p.1 with | SKey.drawing _ => false | _ => true)

/-- Method `cancelPendingCleanup`: early return when nothing is pending
(so the alarm is not touched), otherwise clear the record and delete the
alarm. -/
def cancelPendingCleanup (s : RoomState) : RoomState :=
  if s.pendingCleanupAt = none then s
  else { s with pendingCleanupAt := none, alarmTime := none }

/-- Constant `EMPTY_ROOM_CLEANUP_DELAY_MS` (3 minutes). -/
def EMPTY_ROOM_CLEANUP_DELAY_MS : Nat := 3 * 60 * 1000

/-- Method `scheduleEmptyRoomCleanup`: early return when a cleanup is
already pending, otherwise record `now + delay` and set the alarm. -/
def scheduleEmptyRoomCleanup (s : RoomState) (now : Nat) : RoomState :=
  if ¬ s.pendingCleanupAt = none then s
  else
    let t := now + EMPTY_ROOM_CLEANUP_DELAY_MS
    { s with pendingCleanupAt := some t, alarmTime := some t }

/-- Method `clearRoomData`: the full wipe.  Resets every field the
source resets and deletes all storage and the alarm; the limiters and
the room identifier are not touched by the source. -/
def clearRoomData (s : RoomState) : RoomState :=
  { s with
    pendingCleanupAt := none
    connections := []
    users := []
    connectionToUser := []
    messages := []
    roomMinProtocolVersion := none
    fileName := none
    isRoomClosed := false
    storage := []
    alarmTime := none }

/-- Method `sendSystemMessage`: append a `System` chat message and
broadcast it to every connection. -/
def sendSystemMessage (s : RoomState) (content : String) (now : Nat)
    (fid : String) : RoomState × List OutEvent :=
  let msg : ChatMessage :=
    { id := fid, userId := "system", userName := "System",
      content := content, timestamp := now, messageType := MessageType.system }
  ({ s with messages := s.messages ++ [msg] },
    broadcastFrames s.connections (Frame.chatF msg) none)

/-- Method `broadcastUserList`. -/
def broadcastUserList (s : RoomState) : List OutEvent :=
  broadcastFrames s.connections (Frame.userListF (s.users.map (·.2))) none

/-- Method `loginUserSession`: reject when `userId` or `userName` is
falsy, otherwise build the session (role defaulting to viewer when
falsy) and write both registry maps.  Returns the session when
registration happened. -/
def loginUserSession (s : RoomState) (ws : Nat) (userId userName role :
    Option String) (protocolVersion : Nat) (platform appVersion : Option String) :
    Option UserSession × RoomState × List OutEvent :=
  if ¬ (truthy userId ∧ truthy userName) then
    (none, s, [OutEvent.send ws (Frame.errorF ErrorType.MISSING_USER_INFO)])
  else
    let sess : UserSession :=
      { userId := jsStr userId
        userName := jsStr userName
        role := if truthy role then jsStr role else "viewer"
        roomId := s.roomId
        protocolVersion := protocolVersion
        platform := platform
        appVersion := appVersion }
    (some sess,
      { s with
        users := mapSet s.users sess.userId sess
        connectionToUser := mapSet s.connectionToUser ws sess.userId },
      [])

/-- Method `validateJoinProtocolCompatibility`: compare the joiner's
resolved version against the room minimum (defaulting to the legacy
version 1 when unset); on failure send `UPGRADE_REQUIRED` and close the
socket with code 1008. -/
def validateJoinProtocolCompatibility (roomMin : Option Nat) (ws : Nat)
    (joinerVersion : Nat) : Bool × List OutEvent :=
  let requiredMinVersion := roomMin.getD 1
  if joinerVersion < requiredMinVersion then
    (false,
      [OutEvent.send ws (Frame.errorF ErrorType.UPGRADE_REQUIRED),
       OutEvent.close ws 1008 "upgrade_required"])
  else
    (true, [])

/-- Method `handleCreate` (final revision, lines 564 to 601). -/
def handleCreate (s : RoomState) (ws : Nat) (m : WSMessage) (now : Nat)
    (fid : String) : RoomState × List OutEvent :=
  match m.content with
  | none => (s, [OutEvent.send ws (Frame.errorF ErrorType.MISSING_USER_INFO)])
  | some c =>
    if ¬ (truthy c.userId ∧ truthy c.userName ∧ truthy c.role) then
      (s, [OutEvent.send ws (Frame.errorF ErrorType.MISSING_USER_INFO)])
    else
      let pv := resolveClientProtocolVersion c
      let hasActiveUsers : Bool := ¬ s.users = []
      let s1 := cancelPendingCleanup s
      let s2 := { s1 with isRoomClosed := false }
      if ¬ c.role = some "host" then
        (s2, [OutEvent.send ws (Frame.errorF ErrorType.ROOM_IS_CLOSED)])
      else
        let s3 := { s2 with roomMinProtocolVersion := some pv }
        let s4 := if hasActiveUsers then s3
                  else { s3 with storage := [], alarmTime := none }
        let lr := loginUserSession s4 ws c.userId c.userName c.role pv
          c.platform c.appVersion
        match lr.1 with
        | none => (lr.2.1, lr.2.2)
        | some sess =>
          let s6 := if truthy c.fileName then { lr.2.1 with fileName := c.fileName }
                    else lr.2.1
          let sm := sendSystemMessage s6 (sess.userName ++ "XXXjoined_room") now fid
          (sm.1, sm.2 ++ broadcastUserList sm.1)

/-- Method `handleJoin` (final revision, lines 604 to 694). -/
def handleJoin (s : RoomState) (ws : Nat) (m : WSMessage) (now : Nat)
    (fid : String) : RoomState × List OutEvent :=
  if s.isRoomClosed then
    (s, [OutEvent.send ws (Frame.errorF ErrorType.ROOM_IS_CLOSED),
         OutEvent.close ws 1000 "room_is_closed"])
  else
    match m.content with
    | none => (s, [OutEvent.send ws (Frame.errorF ErrorType.MISSING_USER_INFO)])
    | some c =>
      if ¬ (truthy c.userId ∧ truthy c.userName ∧ truthy c.role) then
        (s, [OutEvent.send ws (Frame.errorF ErrorType.MISSING_USER_INFO)])
      else
        let pv := resolveClientProtocolVersion c
        let roomExists : Bool := ¬ s.users = []
        if ¬ roomExists ∧ ¬ c.role = some "host" then
          (s, [OutEvent.send ws (Frame.errorF ErrorType.ROOM_IS_CLOSED)])
        else
          let vr := validateJoinProtocolCompatibility s.roomMinProtocolVersion ws pv
          if ¬ vr.1 then (s, vr.2)
          else
            let lr := loginUserSession s ws c.userId c.userName c.role pv
              c.platform c.appVersion
            match lr.1 with
            | none => (lr.2.1, lr.2.2)
            | some sess =>
              let s1 := lr.2.1
              let initFrame := Frame.initSetupF s1.messages (s1.users.map (·.2))
                s1.fileName (s1.roomMinProtocolVersion.getD 1)
                (listMoveView s1.storage) (mapGet s1.storage SKey.background)
                (listDrawing s1.storage)
              let sm := sendSystemMessage s1 (sess.userName ++ "XXXjoined_room") now fid
              (sm.1, OutEvent.send ws initFrame :: (sm.2 ++ broadcastUserList sm.1))

/-- Method `handleChat` (final revision, lines 713 to 758): registration
check, then the rate limiter (which therefore counts the call even when
the content later fails validation), then content validation, HTML
escaping, append and broadcast. -/
def handleChat (s : RoomState) (ws : Nat) (m : WSMessage) (now : Nat)
    (fid : String) : RoomState × List OutEvent :=
  match mapGet s.connectionToUser ws with
  | none => (s, [OutEvent.send ws (Frame.errorF ErrorType.USER_NOT_JOINED)])
  | some uid =>
    let lim := isRateLimited s.messageLimiter uid now
    let s1 := { s with messageLimiter := lim.2 }
    if lim.1 then
      (s1, [OutEvent.send ws (Frame.errorF ErrorType.RATE_LIMITED)])
    else
      match mapGet s1.users uid with
      | none => (s1, [])
      | some user =>
        match m.content.bind (·.chatContent) with
        | none => (s1, [OutEvent.send ws (Frame.errorF ErrorType.INVALID_FORMAT)])
        | some ChatVal.nonString =>
            (s1, [OutEvent.send ws (Frame.errorF ErrorType.INVALID_FORMAT)])
        | some (ChatVal.str text) =>
          if text = "" then
            (s1, [OutEvent.send ws (Frame.errorF ErrorType.INVALID_FORMAT)])
          else if text.length > 1000 then
            (s1, [OutEvent.send ws (Frame.errorF ErrorType.MESSAGE_TOO_LONG)])
          else
            let msg : ChatMessage :=
              { id := fid, userId := user.userId, userName := user.userName,
                content := sanitizeContent text, timestamp := now,
                messageType := MessageType.text }
            ({ s1 with messages := s1.messages ++ [msg] },
              broadcastFrames s1.connections (Frame.chatF msg) none)

/-- Method `handleUpdateBackground` (final revision, lines 761 to 777).
An unregistered sender returns silently; a missing content returns
silently; the broadcast is gated on the frame's `broadcast` flag. -/
def handleUpdateBackground (s : RoomState) (ws : Nat) (m : WSMessage)
    (now : Nat) : RoomState × List OutEvent :=
  match mapGet s.connectionToUser ws with
  | none => (s, [])
  | some uid =>
    let lim := isRateLimited s.drawingLimiter uid now
    let s1 := { s with drawingLimiter := lim.2 }
    if lim.1 then
      (s1, [OutEvent.send ws (Frame.errorF ErrorType.RATE_LIMITED)])
    else
      match m.content with
      | none => (s1, [])
      | some c =>
        let s2 := { s1 with storage := mapSet s1.storage SKey.background (StoredVal.raw c) }
        if ¬ m.broadcast then (s2, [])
        else (s2, broadcastFrames s2.connections (Frame.updateBackgroundF c) (some ws))

/-- Method `handleUpdateMoveView` (final revision, lines 781 to 808). -/
def handleUpdateMoveView (s : RoomState) (ws : Nat) (m : WSMessage)
    (now : Nat) : RoomState × List OutEvent :=
  match mapGet s.connectionToUser ws with
  | none => (s, [])
  | some uid =>
    let lim := isRateLimited s.drawingLimiter uid now
    let s1 := { s with drawingLimiter := lim.2 }
    if lim.1 then
      (s1, [OutEvent.send ws (Frame.errorF ErrorType.RATE_LIMITED)])
    else
      match m.content with
      | none => (s1, [])
      | some c =>
        let metadata : Metadata := { id := c.id, model := c.model, timestamp := now }
        let st2 := mapSet s1.storage (SKey.moveView (jsStr c.id)) (StoredVal.meta metadata)
        let s2 := { s1 with storage := st2 }
        if ¬ m.broadcast then (s2, [])
        else (s2, broadcastFrames s2.connections (Frame.updateMoveViewF c) (some ws))

/-- Method `handleDeleteMoveView` (final revision, lines 811 to 833):
like `handleUpdateMoveView` but deleting the key, and broadcasting
unconditionally (no `broadcast` flag gate). -/
def handleDeleteMoveView (s : RoomState) (ws : Nat) (m : WSMessage)
    (now : Nat) : RoomState × List OutEvent :=
  match mapGet s.connectionToUser ws with
  | none => (s, [])
  | some uid =>
    let lim := isRateLimited s.drawingLimiter uid now
    let s1 := { s with drawingLimiter := lim.2 }
    if lim.1 then
      (s1, [OutEvent.send ws (Frame.errorF ErrorType.RATE_LIMITED)])
    else
      match m.content with
      | none => (s1, [])
      | some c =>
        let s2 := { s1 with storage := mapDel s1.storage (SKey.moveView (jsStr c.id)) }
        (s2, broadcastFrames s2.connections (Frame.deleteMoveViewF c.id) (some ws))

/-- Method `handleDrawingUpdate` (final revision, lines 836 to 891).
The unknown-action throw is caught by the handler's own try/catch and
answered with `DRAWING_UPDATE_FAILED`. -/
def handleDrawingUpdate (s : RoomState) (ws : Nat) (m : WSMessage)
    (now : Nat) : RoomState × List OutEvent :=
  match m.content with
  | none => (s, [])
  | some c =>
    match mapGet s.connectionToUser ws with
    | none => (s, [])
    | some uid =>
      let lim := isRateLimited s.drawingLimiter uid now
      let s1 := { s with drawingLimiter := lim.2 }
      if lim.1 then
        (s1, [OutEvent.send ws (Frame.errorF ErrorType.RATE_LIMITED)])
      else
        if ¬ (c.action = some "addStrokes" ∨ c.action = some "moveStrokes" ∨
              c.action = some "removeStrokes" ∨ c.action = some "clearStrokes") then
          (s1, [OutEvent.send ws (Frame.errorF ErrorType.DRAWING_UPDATE_FAILED)])
        else
          let s2 :=
            if c.action = some "clearStrokes" then
              { s1 with storage := deleteDrawingKeys s1.storage }
            else
              let metadata : Metadata := { id := c.id, model := c.model, timestamp := now }
              let st2 := mapSet s1.storage (SKey.drawing (jsStr c.id)) (StoredVal.meta metadata)
              { s1 with storage := st2 }
          if ¬ m.broadcast then (s2, [])
          else (s2, broadcastFrames s2.connections (Frame.drawingUpdateF c) (some ws))

/-- Method `handleUserUpdate` (final revision, lines 541 to 561).  A
missing `content` makes the destructuring throw, which the `onMessage`
catch answers with `INVALID_FORMAT`. -/
def handleUserUpdate (s : RoomState) (ws : Nat) (m : WSMessage) (now : Nat)
    (fid : String) : RoomState × List OutEvent :=
  match m.content with
  | none => (s, [OutEvent.send ws (Frame.errorF ErrorType.INVALID_FORMAT)])
  | some c =>
    match mapGet s.connectionToUser ws with
    | none => (s, [OutEvent.send ws (Frame.errorF ErrorType.USER_NOT_FOUND)])
    | some uid =>
      match mapGet s.users uid with
      | none => (s, [OutEvent.send ws (Frame.errorF ErrorType.SESSION_NOT_FOUND)])
      | some sess =>
        let newName := jsStr c.userName
        let s1 := { s with users := mapSet s.users uid { sess with userName := newName } }
        let sm := sendSystemMessage s1 (newName ++ "XXXupdated_name") now fid
        (sm.1, sm.2 ++ broadcastUserList sm.1)

/-- Method `handleClear` (final revision, lines 896 to 899): broadcast a
clear frame to every connection, with no checks and no state change. -/
def handleClear (s : RoomState) : RoomState × List OutEvent :=
  (s, broadcastFrames s.connections Frame.clearF none)

/-- Method `handleCloseRoom` (final revision, lines 507 to 539): silent
return for an unregistered sender; `ONLY_HOST_CAN_DO` for a non-host;
otherwise mark closed, broadcast the notice, await the one-second grace
delay, force-close every connection, and wipe the room. -/
def handleCloseRoom (s : RoomState) (ws : Nat) : RoomState × List OutEvent :=
  match mapGet s.connectionToUser ws with
  | none => (s, [])
  | some uid =>
    match mapGet s.users uid with
    | none => (s, [OutEvent.send ws (Frame.errorF ErrorType.ONLY_HOST_CAN_DO)])
    | some user =>
      if ¬ user.role = "host" then
        (s, [OutEvent.send ws (Frame.errorF ErrorType.ONLY_HOST_CAN_DO)])
      else
        let s1 := { s with isRoomClosed := true }
        let out :=
          broadcastFrames s1.connections Frame.closeRoomNotice none
            ++ [OutEvent.wait 1000]
            ++ s1.connections.map (fun c => OutEvent.close c 1000 "room_closed_by_host")
        (clearRoomData s1, out)

/-- Method `onMessage` (final revision, lines 392 to 440): the command
dispatcher.  A falsy `type` throws into the catch and yields
`INVALID_FORMAT`; an unrecognized type is ignored. -/
def handleMessage (s : RoomState) (ws : Nat) (m : WSMessage) (now : Nat)
    (fid : String) : RoomState × List OutEvent :=
  if m.type = "" then
    (s, [OutEvent.send ws (Frame.errorF ErrorType.INVALID_FORMAT)])
  else if m.type = "create" then handleCreate s ws m now fid
  else if m.type = "join" then handleJoin s ws m now fid
  else if m.type = "chat" then handleChat s ws m now fid
  else if m.type = "updateBackground" then handleUpdateBackground s ws m now
  else if m.type = "updateMoveView" then handleUpdateMoveView s ws m now
  else if m.type = "deleteMoveView" then handleDeleteMoveView s ws m now
  else if m.type = "userUpdate" then handleUserUpdate s ws m now fid
  else if m.type = "clear" then handleClear s
  else if m.type = "drawingUpdate" then handleDrawingUpdate s ws m now
  else if m.type = "closeRoom" then handleCloseRoom s ws
  else (s, [])

/-- Method `handleWebSocket`: a new connection cancels any pending
cleanup and is added to the connection set. -/
def connectEvent (s : RoomState) (c : Nat) : RoomState × List OutEvent :=
  let s1 := cancelPendingCleanup s
  ({ s1 with connections := setAdd s1.connections c }, [])

/-- Method `onClose` (final revision, lines 372 to 389): drop the
departing user from the roster (with a system message and a roster
broadcast when a session existed), remove the registry entry and the
connection, and schedule the delayed cleanup when the room became
empty. -/
def disconnectEvent (s : RoomState) (c : Nat) (now : Nat) (fid : String) :
    RoomState × List OutEvent :=
  let step1 : RoomState × List OutEvent :=
    match mapGet s.connectionToUser c with
    | none => (s, [])
    | some uid =>
      match mapGet s.users uid with
      | none => ({ s with connectionToUser := mapDel s.connectionToUser c }, [])
      | some user =>
        let s1 := { s with users := mapDel s.users uid }
        let sm := sendSystemMessage s1 (user.userName ++ "XXXleft_room") now fid
        let out2 := broadcastUserList sm.1
        ({ sm.1 with connectionToUser := mapDel sm.1.connectionToUser c }, sm.2 ++ out2)
  let s3 := { step1.1 with connections := setDel step1.1.connections c }
  if s3.connections.isEmpty then (scheduleEmptyRoomCleanup s3 now, step1.2)
  else (s3, step1.2)

/-- Method `alarm` (final revision, lines 350 to 361): clear the pending
record; wipe only when the room is still empty. -/
def alarmEvent (s : RoomState) : RoomState × List OutEvent :=
  let s1 := { s with pendingCleanupAt := none }
  if ¬ s1.connections.isEmpty then (s1, [])
  else (clearRoomData s1, [])

/-- Lifecycle and command events that can reach the coordinator. -/
inductive REvent where
  | connect (c : Nat)
  | message (c : Nat) (m : WSMessage) (now : Nat) (fid : String)
  | disconnect (c : Nat) (now : Nat) (fid : String)
  | alarmFire
  deriving Repr

/-- One serialized step of the coordinator (the Durable Object processes
one event of a room at a time). -/
def step (s : RoomState) (e : REvent) : RoomState × List OutEvent :=
  match e with
  | REvent.connect c => connectEvent s c
  | REvent.message c m now fid => handleMessage s c m now fid
  | REvent.disconnect c now fid => disconnectEvent s c now fid
  | REvent.alarmFire => alarmEvent s

/-- The state of a freshly constructed `Chat` instance: field
initializers of the class, empty storage, no alarm. -/
def initState (rid : String) : RoomState :=
  { roomId := rid
    isRoomClosed := false
    fileName := none
    roomMinProtocolVersion := none
    users := []
    messages := []
    connections := []
    connectionToUser := []
    messageLimiter := freshLimiter 10 5000
    drawingLimiter := freshLimiter 100 5000
    pendingCleanupAt := none
    storage := []
    alarmTime := none }

/-- Run a sequence of events from the fresh instance, keeping only the
final state. -/
def runEvents (rid : String) (es : List REvent) : RoomState :=
  es.foldl (fun s e => (step s e).1) (initState rid)

/-- Reachability: the states a room can be in between serialized
events. -/
inductive Reachable (rid : String) : RoomState → Prop where
  | init : Reachable rid (initState rid)
  | next (s : RoomState) (e : REvent) (h : Reachable rid s) :
      Reachable rid (step s e).1

/-- Targets of the error frames in an output list, in order. -/
def errTargets : List OutEvent → List Nat
  | [] => []
  | OutEvent.send c (Frame.errorF _) :: rest => c :: errTargets rest
  | _ :: rest => errTargets rest

/-- Whether a frame is an error frame. -/
def isErrFrame : Frame → Bool
  | Frame.errorF _ => true
  | _ => false

/-- Fold `isRateLimited` over a list of call times for one subject,
collecting the decisions (`true` means the call was rate limited). -/
def limiterRun (rl : RateLimiter) (key : String) : List Nat → List Bool × RateLimiter
  | [] => ([], rl)
  | t :: ts =>
    let r := isRateLimited rl key t
    let rest := limiterRun r.2 key ts
    (r.1 :: rest.1, rest.2)

/-- A chat payload the content validation of `handleChat` rejects:
absent, not a string, the empty string, or longer than 1000. -/
def invalidChatPayload : Option ChatVal → Prop
  | none => True
  | some ChatVal.nonString => True
  | some (ChatVal.str t) => t = "" ∨ t.length > 1000

/-- A well-formed host `create` frame, used by the concrete scenarios. -/
def mkHostCreate (uid uname : String) (pv : Option Int) : WSMessage :=
  { type := "create"
    content := some { userId := some uid, userName := some uname,
                      role := some "host", protocolVersion := pv } }

/-- Concrete scenario: connection 0 creates the room as host (declared
protocol version 2), then connection 1 attaches without registering. -/
def sTwoConns : RoomState :=
  runEvents "r"
    [REvent.connect 0,
     REvent.message 0 (mkHostCreate "u1" "Ann" (some 2)) 0 "m1",
     REvent.connect 1]

/-- Concrete scenario: after `sTwoConns`, connection 1 re-creates the
room as host for the same userId with declared protocol version 3. -/
def sSecondCreate : RoomState :=
  (step sTwoConns (REvent.message 1 (mkHostCreate "u1" "Ann" (some 3)) 5 "m2")).1

/-- Concrete scenario: a room with only its host (connection 0,
userId u1) registered. -/
def sHostOnly : RoomState :=
  runEvents "r"
    [REvent.connect 0,
     REvent.message 0 (mkHostCreate "u1" "Ann" (some 1)) 0 "m1"]

/-- Concrete scenario: the host-only room after one valid chat from
connection 0 at time 100, which opened the chat limiter window for u1. -/
def sChatted : RoomState :=
  (step sHostOnly (REvent.message 0
    { type := "chat", content := some { chatContent := some (ChatVal.str "hi") } }
    100 "c1")).1

theorem find?_mapSetFn {K V : Type} [DecidableEq K] (t : List (K × V)) (k : K) (v : V) :
    ((t.map (fun p => if p.1 = k then (k, v) else p)).find? (fun p => p.1 = k))
      = if t.any (fun p => p.1 = k) then some (k, v) else none := by
  induction t with
  | nil => rfl
  | cons p t ih =>
    by_cases h : p.1 = k
    · rw [List.map_cons, if_pos h, List.find?_cons_of_pos _ (by simp)]
      simp [List.any_cons, h]
    · rw [List.map_cons, if_neg h, List.find?_cons_of_neg _ (by simp [h]), ih]
      have hd : decide (p.1 = k) = false := by simp [h]
      rw [List.any_cons, hd, Bool.false_or]

theorem find?_append_single {K V : Type} [DecidableEq K] (t : List (K × V)) (k : K) (v : V)
    (h : t.any (fun p => p.1 = k) = false) :
    ((t ++ [(k, v)]).find? (fun p => p.1 = k)) = some (k, v) := by
  induction t with
  | nil => simp [List.find?]
  | cons p t ih =>
    simp only [List.any_cons, Bool.or_eq_false_iff] at h
    simp only [List.cons_append, List.find?]
    rw [h.1]
    exact ih h.2

theorem mapGet_mapSet_self {K V : Type} [DecidableEq K] (m : List (K × V)) (k : K) (v : V) :
    mapGet (mapSet m k v) k = some v := by
  unfold mapGet mapSet
  by_cases h : m.any (fun p => p.1 = k)
  · rw [if_pos h, find?_mapSetFn, if_pos h]
    rfl
  · have hb : m.any (fun p => p.1 = k) = false := by
      cases hh : m.any (fun p => p.1 = k) with
      | false => rfl
      | true => exact absurd hh h
    rw [if_neg h, find?_append_single m k v hb]
    rfl

theorem find?_mapSetFn_other {K V : Type} [DecidableEq K] (t : List (K × V)) (k k2 : K) (v : V)
    (hkk : ¬ k2 = k) :
    ((t.map (fun p => if p.1 = k then (k, v) else p)).find? (fun p => p.1 = k2))
      = t.find? (fun p => p.1 = k2) := by
  induction t with
  | nil => rfl
  | cons p t ih =>
    by_cases h : p.1 = k
    · have h3 : ¬ (p.1 = k2) := by rw [h]; exact fun hh => hkk hh.symm
      rw [List.map_cons, if_pos h, List.find?_cons_of_neg _ (by simp; exact fun hh => hkk hh.symm),
        List.find?_cons_of_neg _ (by simp [h3]), ih]
    · by_cases h4 : p.1 = k2
      · rw [List.map_cons, if_neg h, List.find?_cons_of_pos _ (by simp [h4]),
          List.find?_cons_of_pos _ (by simp [h4])]
      · rw [List.map_cons, if_neg h, List.find?_cons_of_neg _ (by simp [h4]),
          List.find?_cons_of_neg _ (by simp [h4]), ih]

theorem mapGet_mapSet_other {K V : Type} [DecidableEq K] (m : List (K × V)) (k k2 : K) (v : V)
    (hkk : ¬ k2 = k) :
    mapGet (mapSet m k v) k2 = mapGet m k2 := by
  unfold mapGet mapSet
  by_cases h : m.any (fun p => p.1 = k)
  · rw [if_pos h, find?_mapSetFn_other m k k2 v hkk]
  · rw [if_neg h, List.find?_append]
    have h1 : ([(k, v)].find? (fun p => p.1 = k2)) = none := by
      rw [List.find?_cons_of_neg _ (by simp; exact fun hh => hkk hh.symm)]
      rfl
    simp [h1]

theorem mapSet_mem {K V : Type} [DecidableEq K] (m : List (K × V)) (k : K) (v : V) :
    (k, v) ∈ mapSet m k v := by
  unfold mapSet
  by_cases h : m.any (fun p => p.1 = k)
  · rw [if_pos h]
    simp only [List.any_eq_true, decide_eq_true_eq] at h
    obtain ⟨p, hp, hpk⟩ := h
    have hmem := List.mem_map_of_mem (fun q => if q.1 = k then (k, v) else q) hp
    have hmem2 : (if p.1 = k then (k, v) else p) ∈
        m.map (fun q => if q.1 = k then (k, v) else q) := hmem
    rw [if_pos hpk] at hmem2
    exact hmem2
  · rw [if_neg h]
    exact List.mem_append_right _ (by simp)

theorem eta_isRoomClosed (s : RoomState) (h : s.isRoomClosed = false) :
    { s with isRoomClosed := false } = s := by
  have h2 : { s with isRoomClosed := s.isRoomClosed } = s := rfl
  rw [h] at h2
  exact h2

theorem eta_messageLimiter (s : RoomState) : { s with messageLimiter := s.messageLimiter } = s :=
  rfl

theorem eta_drawingLimiter (s : RoomState) : { s with drawingLimiter := s.drawingLimiter } = s :=
  rfl

theorem errTargets_append (a b : List OutEvent) :
    errTargets (a ++ b) = errTargets a ++ errTargets b := by
  induction a with
  | nil => rfl
  | cons e t ih =>
    cases e with
    | send c f => cases f <;> simp [errTargets, ih]
    | close c code r => simp [errTargets, ih]
    | wait ms => simp [errTargets, ih]

theorem errTargets_map_send (l : List Nat) (f : Frame) (h : isErrFrame f = false) :
    errTargets (l.map (fun c => OutEvent.send c f)) = [] := by
  induction l with
  | nil => rfl
  | cons c t ih => cases f <;> simp_all [errTargets, isErrFrame]

theorem errTargets_broadcast (conns : List Nat) (f : Frame) (ex : Option Nat)
    (h : isErrFrame f = false) :
    errTargets (broadcastFrames conns f ex) = [] := by
  unfold broadcastFrames
  exact errTargets_map_send _ _ h

theorem errTargets_map_close (l : List Nat) (code : Nat) (r : String) :
    errTargets (l.map (fun c => OutEvent.close c code r)) = [] := by
  induction l with
  | nil => rfl
  | cons c t ih => simp [errTargets, ih]

theorem reachable_foldl (rid : String) (es : List REvent) (s : RoomState)
    (h : Reachable rid s) :
    Reachable rid (es.foldl (fun s e => (step s e).1) s) := by
  induction es generalizing s with
  | nil => exact h
  | cons e t ih => exact ih _ (Reachable.next s e h)

theorem reachable_runEvents (rid : String) (es : List REvent) :
    Reachable rid (runEvents rid es) :=
  reachable_foldl rid es _ Reachable.init

/-- The two facts that hold of every state between serialized events:
the closed flag is reset before each handler returns, and a cleanup is
pending only while the room has no connections. -/
def StateInv (s : RoomState) : Prop :=
  s.isRoomClosed = false ∧ (s.pendingCleanupAt = none ∨ s.connections = [])

theorem sendSys_closed (s : RoomState) (c : String) (now : Nat) (fid : String) :
    ((sendSystemMessage s c now fid).1).isRoomClosed = s.isRoomClosed := rfl

theorem sendSys_pending (s : RoomState) (c : String) (now : Nat) (fid : String) :
    ((sendSystemMessage s c now fid).1).pendingCleanupAt = s.pendingCleanupAt := rfl

theorem sendSys_conns (s : RoomState) (c : String) (now : Nat) (fid : String) :
    ((sendSystemMessage s c now fid).1).connections = s.connections := rfl

theorem sendSys_min (s : RoomState) (c : String) (now : Nat) (fid : String) :
    ((sendSystemMessage s c now fid).1).roomMinProtocolVersion = s.roomMinProtocolVersion := rfl

theorem sendSys_storage (s : RoomState) (c : String) (now : Nat) (fid : String) :
    ((sendSystemMessage s c now fid).1).storage = s.storage := rfl

theorem login_closed (s : RoomState) (ws : Nat) (a b r : Option String) (pv : Nat)
    (p av : Option String) :
    ((loginUserSession s ws a b r pv p av).2.1).isRoomClosed = s.isRoomClosed := by
  unfold loginUserSession; split <;> rfl

theorem login_pending (s : RoomState) (ws : Nat) (a b r : Option String) (pv : Nat)
    (p av : Option String) :
    ((loginUserSession s ws a b r pv p av).2.1).pendingCleanupAt = s.pendingCleanupAt := by
  unfold loginUserSession; split <;> rfl

theorem login_conns (s : RoomState) (ws : Nat) (a b r : Option String) (pv : Nat)
    (p av : Option String) :
    ((loginUserSession s ws a b r pv p av).2.1).connections = s.connections := by
  unfold loginUserSession; split <;> rfl

theorem login_min (s : RoomState) (ws : Nat) (a b r : Option String) (pv : Nat)
    (p av : Option String) :
    ((loginUserSession s ws a b r pv p av).2.1).roomMinProtocolVersion
      = s.roomMinProtocolVersion := by
  unfold loginUserSession; split <;> rfl

theorem login_storage (s : RoomState) (ws : Nat) (a b r : Option String) (pv : Nat)
    (p av : Option String) :
    ((loginUserSession s ws a b r pv p av).2.1).storage = s.storage := by
  unfold loginUserSession; split <;> rfl

theorem cancel_pending (s : RoomState) :
    (cancelPendingCleanup s).pendingCleanupAt = none := by
  unfold cancelPendingCleanup; split <;> simp_all

theorem cancel_closed (s : RoomState) :
    (cancelPendingCleanup s).isRoomClosed = s.isRoomClosed := by
  unfold cancelPendingCleanup; split <;> rfl

theorem cancel_conns (s : RoomState) :
    (cancelPendingCleanup s).connections = s.connections := by
  unfold cancelPendingCleanup; split <;> rfl

theorem handleChat_proj (s : RoomState) (ws : Nat) (m : WSMessage) (now : Nat) (fid : String) :
    ((handleChat s ws m now fid).1).isRoomClosed = s.isRoomClosed
    ∧ ((handleChat s ws m now fid).1).pendingCleanupAt = s.pendingCleanupAt
    ∧ ((handleChat s ws m now fid).1).connections = s.connections
    ∧ ((handleChat s ws m now fid).1).roomMinProtocolVersion = s.roomMinProtocolVersion := by
  unfold handleChat
  dsimp only
  (repeat' split) <;> exact ⟨rfl, rfl, rfl, rfl⟩

theorem handleJoin_proj (s : RoomState) (ws : Nat) (m : WSMessage) (now : Nat) (fid : String) :
    ((handleJoin s ws m now fid).1).isRoomClosed = s.isRoomClosed
    ∧ ((handleJoin s ws m now fid).1).pendingCleanupAt = s.pendingCleanupAt
    ∧ ((handleJoin s ws m now fid).1).connections = s.connections
    ∧ ((handleJoin s ws m now fid).1).roomMinProtocolVersion = s.roomMinProtocolVersion := by
  unfold handleJoin
  dsimp only
  (repeat' split) <;>
    first
      | exact ⟨rfl, rfl, rfl, rfl⟩
      | exact ⟨(sendSys_closed _ _ _ _).trans (login_closed _ _ _ _ _ _ _ _),
          (sendSys_pending _ _ _ _).trans (login_pending _ _ _ _ _ _ _ _),
          (sendSys_conns _ _ _ _).trans (login_conns _ _ _ _ _ _ _ _),
          (sendSys_min _ _ _ _).trans (login_min _ _ _ _ _ _ _ _)⟩
      | exact ⟨login_closed _ _ _ _ _ _ _ _, login_pending _ _ _ _ _ _ _ _,
          login_conns _ _ _ _ _ _ _ _, login_min _ _ _ _ _ _ _ _⟩

theorem handleUpdateBackground_proj (s : RoomState) (ws : Nat) (m : WSMessage) (now : Nat) :
    ((handleUpdateBackground s ws m now).1).isRoomClosed = s.isRoomClosed
    ∧ ((handleUpdateBackground s ws m now).1).pendingCleanupAt = s.pendingCleanupAt
    ∧ ((handleUpdateBackground s ws m now).1).connections = s.connections
    ∧ ((handleUpdateBackground s ws m now).1).roomMinProtocolVersion = s.roomMinProtocolVersion := by
  unfold handleUpdateBackground
  dsimp only
  (repeat' split) <;> exact ⟨rfl, rfl, rfl, rfl⟩

theorem handleUpdateMoveView_proj (s : RoomState) (ws : Nat) (m : WSMessage) (now : Nat) :
    ((handleUpdateMoveView s ws m now).1).isRoomClosed = s.isRoomClosed
    ∧ ((handleUpdateMoveView s ws m now).1).pendingCleanupAt = s.pendingCleanupAt
    ∧ ((handleUpdateMoveView s ws m now).1).connections = s.connections
    ∧ ((handleUpdateMoveView s ws m now).1).roomMinProtocolVersion = s.roomMinProtocolVersion := by
  unfold handleUpdateMoveView
  dsimp only
  (repeat' split) <;> exact ⟨rfl, rfl, rfl, rfl⟩

theorem handleDeleteMoveView_proj (s : RoomState) (ws : Nat) (m : WSMessage) (now : Nat) :
    ((handleDeleteMoveView s ws m now).1).isRoomClosed = s.isRoomClosed
    ∧ ((handleDeleteMoveView s ws m now).1).pendingCleanupAt = s.pendingCleanupAt
    ∧ ((handleDeleteMoveView s ws m now).1).connections = s.connections
    ∧ ((handleDeleteMoveView s ws m now).1).roomMinProtocolVersion = s.roomMinProtocolVersion := by
  unfold handleDeleteMoveView
  dsimp only
  (repeat' split) <;> exact ⟨rfl, rfl, rfl, rfl⟩

theorem handleDrawingUpdate_proj (s : RoomState) (ws : Nat) (m : WSMessage) (now : Nat) :
    ((handleDrawingUpdate s ws m now).1).isRoomClosed = s.isRoomClosed
    ∧ ((handleDrawingUpdate s ws m now).1).pendingCleanupAt = s.pendingCleanupAt
    ∧ ((handleDrawingUpdate s ws m now).1).connections = s.connections
    ∧ ((handleDrawingUpdate s ws m now).1).roomMinProtocolVersion = s.roomMinProtocolVersion := by
  unfold handleDrawingUpdate
  dsimp only
  (repeat' split) <;> exact ⟨rfl, rfl, rfl, rfl⟩

theorem handleUserUpdate_proj (s : RoomState) (ws : Nat) (m : WSMessage) (now : Nat)
    (fid : String) :
    ((handleUserUpdate s ws m now fid).1).isRoomClosed = s.isRoomClosed
    ∧ ((handleUserUpdate s ws m now fid).1).pendingCleanupAt = s.pendingCleanupAt
    ∧ ((handleUserUpdate s ws m now fid).1).connections = s.connections
    ∧ ((handleUserUpdate s ws m now fid).1).roomMinProtocolVersion = s.roomMinProtocolVersion := by
  unfold handleUserUpdate
  dsimp only
  (repeat' split) <;> exact ⟨rfl, rfl, rfl, rfl⟩

theorem handleClear_proj (s : RoomState) :
    (handleClear s).1 = s := rfl

theorem sched_closed (s : RoomState) (now : Nat) :
    (scheduleEmptyRoomCleanup s now).isRoomClosed = s.isRoomClosed := by
  unfold scheduleEmptyRoomCleanup; split <;> rfl

theorem sched_conns (s : RoomState) (now : Nat) :
    (scheduleEmptyRoomCleanup s now).connections = s.connections := by
  unfold scheduleEmptyRoomCleanup; split <;> rfl

theorem inv_of_proj {s t : RoomState} (h : StateInv s)
    (hc : t.isRoomClosed = s.isRoomClosed)
    (hp : t.pendingCleanupAt = s.pendingCleanupAt)
    (hcn : t.connections = s.connections) : StateInv t := by
  unfold StateInv at h ⊢
  rw [hc, hp, hcn]
  exact h

theorem inv_handleCreate (s : RoomState) (ws : Nat) (m : WSMessage) (now : Nat)
    (fid : String) (h : StateInv s) : StateInv (handleCreate s ws m now fid).1 := by
  obtain ⟨h1, h2⟩ := h
  unfold handleCreate
  dsimp only
  (repeat' split) <;>
    simp_all [StateInv, sendSys_closed, sendSys_pending, login_closed, login_pending,
      cancel_closed, cancel_pending]

theorem inv_handleCloseRoom (s : RoomState) (ws : Nat) (h : StateInv s) :
    StateInv (handleCloseRoom s ws).1 := by
  obtain ⟨h1, h2⟩ := h
  unfold handleCloseRoom
  dsimp only
  (repeat' split) <;> simp_all [StateInv, clearRoomData]

theorem inv_connectEvent (s : RoomState) (c : Nat) (h : StateInv s) :
    StateInv (connectEvent s c).1 := by
  unfold connectEvent StateInv
  dsimp only
  rw [cancel_closed, cancel_pending]
  exact ⟨h.1, Or.inl rfl⟩

theorem disconnect_closed_conns (s : RoomState) (c : Nat) (now : Nat) (fid : String) :
    ((disconnectEvent s c now fid).1).isRoomClosed = s.isRoomClosed := by
  unfold disconnectEvent
  dsimp only
  (repeat' split) <;> simp_all [sched_closed, sendSys_closed]

theorem disconnect_conns (s : RoomState) (c : Nat) (now : Nat) (fid : String) :
    ((disconnectEvent s c now fid).1).connections = setDel s.connections c := by
  unfold disconnectEvent
  dsimp only
  (repeat' split) <;> simp_all [sched_conns, sendSys_conns]

theorem disconnect_pending (s : RoomState) (c : Nat) (now : Nat) (fid : String) :
    ((disconnectEvent s c now fid).1).pendingCleanupAt = s.pendingCleanupAt
    ∨ ((disconnectEvent s c now fid).1).connections = [] := by
  unfold disconnectEvent
  dsimp only
  (repeat' split) <;>
    first
      | (refine Or.inr ?_; simp_all [sched_conns, List.isEmpty_iff]; done)
      | (refine Or.inl ?_; simp_all [sendSys_pending])

theorem inv_disconnectEvent (s : RoomState) (c : Nat) (now : Nat) (fid : String)
    (h : StateInv s) : StateInv (disconnectEvent s c now fid).1 := by
  obtain ⟨h1, h2⟩ := h
  refine ⟨(disconnect_closed_conns s c now fid).trans h1, ?_⟩
  rcases disconnect_pending s c now fid with hp | hc
  · rcases h2 with hn | hcs
    · exact Or.inl (hp.trans hn)
    · refine Or.inr ?_
      rw [disconnect_conns, hcs]
      rfl
  · exact Or.inr hc

theorem inv_alarmEvent (s : RoomState) (h : StateInv s) :
    StateInv (alarmEvent s).1 := by
  unfold alarmEvent
  dsimp only
  split <;> simp_all [StateInv, clearRoomData]

set_option maxHeartbeats 1000000 in
theorem stepInv (s : RoomState) (e : REvent) (h : StateInv s) : StateInv (step s e).1 := by
  cases e with
  | connect c => exact inv_connectEvent s c h
  | disconnect c now fid => exact inv_disconnectEvent s c now fid h
  | alarmFire => exact inv_alarmEvent s h
  | message c m now fid =>
    unfold step handleMessage
    dsimp only
    split
    · exact h
    split
    · exact inv_handleCreate s c m now fid h
    split
    · obtain ⟨p1, p2, p3, p4⟩ := handleJoin_proj s c m now fid
      exact inv_of_proj h p1 p2 p3
    split
    · obtain ⟨p1, p2, p3, p4⟩ := handleChat_proj s c m now fid
      exact inv_of_proj h p1 p2 p3
    split
    · obtain ⟨p1, p2, p3, p4⟩ := handleUpdateBackground_proj s c m now
      exact inv_of_proj h p1 p2 p3
    split
    · obtain ⟨p1, p2, p3, p4⟩ := handleUpdateMoveView_proj s c m now
      exact inv_of_proj h p1 p2 p3
    split
    · obtain ⟨p1, p2, p3, p4⟩ := handleDeleteMoveView_proj s c m now
      exact inv_of_proj h p1 p2 p3
    split
    · obtain ⟨p1, p2, p3, p4⟩ := handleUserUpdate_proj s c m now fid
      exact inv_of_proj h p1 p2 p3
    split
    · exact inv_of_proj h rfl rfl rfl
    split
    · obtain ⟨p1, p2, p3, p4⟩ := handleDrawingUpdate_proj s c m now
      exact inv_of_proj h p1 p2 p3
    split
    · exact inv_handleCloseRoom s c h
    exact h

theorem reachable_inv (rid : String) (s : RoomState) (h : Reachable rid s) : StateInv s := by
  induction h with
  | init => exact ⟨rfl, Or.inl rfl⟩
  | next s e hr ih => exact stepInv s e ih

theorem dispatch_create (s : RoomState) (ws : Nat) (m : WSMessage) (now : Nat) (fid : String)
    (h : m.type = "create") : handleMessage s ws m now fid = handleCreate s ws m now fid := by
  simp [handleMessage, h]

theorem dispatch_join (s : RoomState) (ws : Nat) (m : WSMessage) (now : Nat) (fid : String)
    (h : m.type = "join") : handleMessage s ws m now fid = handleJoin s ws m now fid := by
  simp [handleMessage, h]

theorem dispatch_chat (s : RoomState) (ws : Nat) (m : WSMessage) (now : Nat) (fid : String)
    (h : m.type = "chat") : handleMessage s ws m now fid = handleChat s ws m now fid := by
  simp [handleMessage, h]

theorem dispatch_clear (s : RoomState) (ws : Nat) (m : WSMessage) (now : Nat) (fid : String)
    (h : m.type = "clear") : handleMessage s ws m now fid = handleClear s := by
  simp [handleMessage, h]

theorem dispatch_closeRoom (s : RoomState) (ws : Nat) (m : WSMessage) (now : Nat) (fid : String)
    (h : m.type = "closeRoom") : handleMessage s ws m now fid = handleCloseRoom s ws := by
  simp [handleMessage, h]

theorem dispatch_updateMoveView (s : RoomState) (ws : Nat) (m : WSMessage) (now : Nat)
    (fid : String) (h : m.type = "updateMoveView") :
    handleMessage s ws m now fid = handleUpdateMoveView s ws m now := by
  simp [handleMessage, h]

theorem dispatch_updateBackground (s : RoomState) (ws : Nat) (m : WSMessage) (now : Nat)
    (fid : String) (h : m.type = "updateBackground") :
    handleMessage s ws m now fid = handleUpdateBackground s ws m now := by
  simp [handleMessage, h]

theorem dispatch_deleteMoveView (s : RoomState) (ws : Nat) (m : WSMessage) (now : Nat)
    (fid : String) (h : m.type = "deleteMoveView") :
    handleMessage s ws m now fid = handleDeleteMoveView s ws m now := by
  simp [handleMessage, h]

theorem dispatch_userUpdate (s : RoomState) (ws : Nat) (m : WSMessage) (now : Nat)
    (fid : String) (h : m.type = "userUpdate") :
    handleMessage s ws m now fid = handleUserUpdate s ws m now fid := by
  simp [handleMessage, h]

theorem dispatch_drawingUpdate (s : RoomState) (ws : Nat) (m : WSMessage) (now : Nat)
    (fid : String) (h : m.type = "drawingUpdate") :
    handleMessage s ws m now fid = handleDrawingUpdate s ws m now := by
  simp [handleMessage, h]

theorem dispatch_empty (s : RoomState) (ws : Nat) (m : WSMessage) (now : Nat)
    (fid : String) (h : m.type = "") :
    handleMessage s ws m now fid
      = (s, [OutEvent.send ws (Frame.errorF ErrorType.INVALID_FORMAT)]) := by
  unfold handleMessage
  rw [if_pos h]

theorem dispatch_unknown (s : RoomState) (ws : Nat) (m : WSMessage) (now : Nat)
    (fid : String) (h0 : ¬ m.type = "") (h1 : ¬ m.type = "create")
    (h2 : ¬ m.type = "join") (h3 : ¬ m.type = "chat")
    (h4 : ¬ m.type = "updateBackground") (h5 : ¬ m.type = "updateMoveView")
    (h6 : ¬ m.type = "deleteMoveView") (h7 : ¬ m.type = "userUpdate")
    (h8 : ¬ m.type = "clear") (h9 : ¬ m.type = "drawingUpdate")
    (h10 : ¬ m.type = "closeRoom") :
    handleMessage s ws m now fid = (s, []) := by
  unfold handleMessage
  rw [if_neg h0, if_neg h1, if_neg h2, if_neg h3, if_neg h4, if_neg h5, if_neg h6,
    if_neg h7, if_neg h8, if_neg h9, if_neg h10]

theorem broadcast_none (conns : List Nat) (f : Frame) :
    broadcastFrames conns f none = conns.map (fun c => OutEvent.send c f) := by
  unfold broadcastFrames
  congr 1
  induction conns with
  | nil => rfl
  | cons c t ih => simp [List.filter, ih]

/-- C9: a frame of type clear is accepted from any connection, registered
or not: the handler broadcasts a clear frame to every open connection
(the sender included, since the broadcast excludes nobody), consults no
rate limiter, produces no error frame, and changes no room state at all
(the returned state is the input state, so roster, message log, closed
flag and persisted storage are untouched). -/
theorem clear_cmd_spec (s : RoomState) (ws : Nat) (content : Option Content)
    (bc : Bool) (now : Nat) (fid : String) :
    handleMessage s ws { type := "clear", content := content, broadcast := bc } now fid
      = (s, s.connections.map (fun c => OutEvent.send c Frame.clearF))
    ∧ (ws ∈ s.connections →
        OutEvent.send ws Frame.clearF ∈
          (handleMessage s ws { type := "clear", content := content, broadcast := bc } now fid).2) := by
  have h1 : handleMessage s ws { type := "clear", content := content, broadcast := bc } now fid
      = (s, s.connections.map (fun c => OutEvent.send c Frame.clearF)) := by
    rw [dispatch_clear s ws _ now fid rfl]
    unfold handleClear
    rw [broadcast_none]
  refine ⟨h1, fun hmem => ?_⟩
  rw [h1]
  exact List.mem_map_of_mem _ hmem

/-- C9 witness: in the concrete host-only room, the sender itself
receives the clear broadcast. -/
theorem clear_cmd_spec_witness :
    OutEvent.send 0 Frame.clearF ∈
      (handleMessage sHostOnly 0 { type := "clear", content := none, broadcast := false }
        9 "f9").2 :=
  (clear_cmd_spec sHostOnly 0 none false 9 "f9").2 (by decide)

/-- C1: a create frame whose content carries a userId, a userName and a
role different from host, arriving from a live connection in any
reachable room state, is answered with the authorization-class error
ROOM_IS_CLOSED sent to the sender only, and the room state is returned
unchanged (hence roster, message log, closed flag, minimum protocol
version, file name, pending-cleanup record and storage are all
untouched).  The reachability hypothesis matters: in a reachable state
with a live connection the pending-cleanup record is already empty and
the closed flag already false, so the handler's unconditional
`cancelPendingCleanup` and `isRoomClosed = false` writes are no-ops. -/
theorem create_nonhost_rejected (rid : String) (s : RoomState) (ws : Nat)
    (m : WSMessage) (c : Content) (now : Nat) (fid : String)
    (hreach : Reachable rid s) (hconn : ws ∈ s.connections)
    (htype : m.type = "create") (hcont : m.content = some c)
    (huid : truthy c.userId = true) (hname : truthy c.userName = true)
    (hrole : truthy c.role = true) (hnothost : ¬ c.role = some "host") :
    handleMessage s ws m now fid
      = (s, [OutEvent.send ws (Frame.errorF ErrorType.ROOM_IS_CLOSED)]) := by
  obtain ⟨hclosed, hpend⟩ := reachable_inv rid s hreach
  have hpn : s.pendingCleanupAt = none := by
    rcases hpend with h | h
    · exact h
    · rw [h] at hconn
      cases hconn
  have hcancel : cancelPendingCleanup s = s := by
    unfold cancelPendingCleanup
    rw [hpn]
    simp
  rw [dispatch_create s ws m now fid htype]
  unfold handleCreate
  rw [hcont]
  dsimp only
  rw [if_neg (fun hn => hn ⟨huid, hname, hrole⟩), hcancel,
    eta_isRoomClosed s hclosed, if_pos hnothost]

/-- C1 witness: in the concrete two-connection room, an editor create
from connection 1 is rejected and the state is returned unchanged. -/
theorem create_nonhost_rejected_witness :
    handleMessage sTwoConns 1
      { type := "create",
        content := some { userId := some "u2", userName := some "Bob", role := some "editor" } }
      7 "f7"
      = (sTwoConns, [OutEvent.send 1 (Frame.errorF ErrorType.ROOM_IS_CLOSED)]) :=
  create_nonhost_rejected "r" sTwoConns 1 _ _ 7 "f7"
    (reachable_runEvents "r" _) (by decide) rfl rfl (by decide) (by decide) (by decide)
    (by decide)

/-- C6: a closeRoom frame from a connection registered to a host
session produces, in order, one closeRoom notice send per open
connection, then the one-second grace delay, then one forced close per
open connection (so every connection is sent the notice before any
connection is closed, and after the delay every connection is closed),
and the resulting state is the full wipe: a subsequent create observes
an empty roster and an empty message log (and empty storage and
connection set). -/
theorem closeRoom_spec (s : RoomState) (ws : Nat) (uid : String) (user : UserSession)
    (m : WSMessage) (now : Nat) (fid : String)
    (hm : m.type = "closeRoom")
    (h1 : mapGet s.connectionToUser ws = some uid)
    (h2 : mapGet s.users uid = some user) (h3 : user.role = "host") :
    handleMessage s ws m now fid
      = (clearRoomData s,
          (s.connections.map (fun c => OutEvent.send c Frame.closeRoomNotice))
            ++ [OutEvent.wait 1000]
            ++ s.connections.map (fun c => OutEvent.close c 1000 "room_closed_by_host"))
    ∧ (∀ c ∈ s.connections,
        OutEvent.send c Frame.closeRoomNotice ∈ (handleMessage s ws m now fid).2
        ∧ OutEvent.close c 1000 "room_closed_by_host" ∈ (handleMessage s ws m now fid).2)
    ∧ ((handleMessage s ws m now fid).1).users = []
    ∧ ((handleMessage s ws m now fid).1).messages = []
    ∧ ((handleMessage s ws m now fid).1).storage = []
    ∧ ((handleMessage s ws m now fid).1).connections = [] := by
  have hmain : handleMessage s ws m now fid
      = (clearRoomData s,
          (s.connections.map (fun c => OutEvent.send c Frame.closeRoomNotice))
            ++ [OutEvent.wait 1000]
            ++ s.connections.map (fun c => OutEvent.close c 1000 "room_closed_by_host")) := by
    rw [dispatch_closeRoom s ws m now fid hm]
    unfold handleCloseRoom
    simp only [h1]
    simp only [h2]
    rw [if_neg (fun hn => hn h3), broadcast_none]
    rfl
  refine ⟨hmain, fun c hc => ?_, ?_, ?_, ?_, ?_⟩
  · rw [hmain]
    constructor
    · exact List.mem_append_left _ (List.mem_append_left _ (List.mem_map_of_mem _ hc))
    · exact List.mem_append_right _ (List.mem_map_of_mem _ hc)
  all_goals rw [hmain]
  all_goals rfl

/-- C6 witness: closing the concrete host-only room. -/
theorem closeRoom_spec_witness :
    handleMessage sHostOnly 0 { type := "closeRoom" } 9 "f9"
      = (clearRoomData sHostOnly,
          (sHostOnly.connections.map (fun c => OutEvent.send c Frame.closeRoomNotice))
            ++ [OutEvent.wait 1000]
            ++ sHostOnly.connections.map (fun c => OutEvent.close c 1000 "room_closed_by_host")) :=
  (closeRoom_spec sHostOnly 0 "u1"
    { userId := "u1", userName := "Ann", role := "host", roomId := "r",
      protocolVersion := 1, platform := none, appVersion := none }
    { type := "closeRoom" } 9 "f9" rfl (by decide) (by decide) rfl).1

/-- C2 counterexample: the claim that after a register no two live
connections map to the same userId is false.  Connection 0 creates the
room as host for userId u1; connection 1 then registers the same userId
u1 via a second create.  `Map.set` on the connection-keyed registry adds
the entry for connection 1 without removing the entry of connection 0,
so both live connections 0 and 1 map to u1 afterwards; the reached state
is a real trace of the coordinator. -/
theorem register_no_overwrite_cex :
    Reachable "r" sSecondCreate
    ∧ mapGet sSecondCreate.connectionToUser 0 = some "u1"
    ∧ mapGet sSecondCreate.connectionToUser 1 = some "u1"
    ∧ 0 ∈ sSecondCreate.connections
    ∧ 1 ∈ sSecondCreate.connections
    ∧ ¬ (0 : Nat) = 1 :=
  ⟨Reachable.next _ _ (reachable_runEvents "r" _), by decide, by decide, by decide,
    by decide, by decide⟩

/-- C2 amended: register writes the sender's connection into the
connection map and overwrites the session record keyed by the userId,
but it leaves every other connection's entry untouched: a prior
connection registered to the same userId keeps its mapping, so the
uniqueness enforced by register is of the session record only, not of
the connection-to-user entries. -/
theorem register_overwrite_semantics (s : RoomState) (ws : Nat)
    (uid uname role : Option String) (pv : Nat) (p av : Option String)
    (h1 : truthy uid = true) (h2 : truthy uname = true) :
    ∃ sess, (loginUserSession s ws uid uname role pv p av).1 = some sess
      ∧ sess.userId = jsStr uid
      ∧ mapGet ((loginUserSession s ws uid uname role pv p av).2.1).connectionToUser ws
          = some (jsStr uid)
      ∧ mapGet ((loginUserSession s ws uid uname role pv p av).2.1).users (jsStr uid)
          = some sess
      ∧ (∀ ws2, ¬ ws2 = ws →
          mapGet ((loginUserSession s ws uid uname role pv p av).2.1).connectionToUser ws2
            = mapGet s.connectionToUser ws2) := by
  unfold loginUserSession
  rw [if_neg (fun hn => hn ⟨h1, h2⟩)]
  refine ⟨_, rfl, rfl, mapGet_mapSet_self _ _ _, mapGet_mapSet_self _ _ _,
    fun ws2 hne => mapGet_mapSet_other _ _ _ _ hne⟩

/-- C2 amended witness: registering u9 on connection 5 of the concrete
two-connection room keeps connection 0 mapped to u1. -/
theorem register_overwrite_semantics_witness :
    ∃ sess, (loginUserSession sTwoConns 5 (some "u9") (some "Eve") (some "editor") 1
        none none).1 = some sess
      ∧ sess.userId = jsStr (some "u9")
      ∧ mapGet ((loginUserSession sTwoConns 5 (some "u9") (some "Eve") (some "editor") 1
            none none).2.1).connectionToUser 5 = some (jsStr (some "u9"))
      ∧ mapGet ((loginUserSession sTwoConns 5 (some "u9") (some "Eve") (some "editor") 1
            none none).2.1).users (jsStr (some "u9")) = some sess
      ∧ (∀ ws2, ¬ ws2 = 5 →
          mapGet ((loginUserSession sTwoConns 5 (some "u9") (some "Eve") (some "editor") 1
              none none).2.1).connectionToUser ws2
            = mapGet sTwoConns.connectionToUser ws2) :=
  register_overwrite_semantics sTwoConns 5 (some "u9") (some "Eve") (some "editor") 1
    none none (by decide) (by decide)

theorem validate_reject (mv ws v : Nat) (h : v < mv) :
    validateJoinProtocolCompatibility (some mv) ws v
      = (false, [OutEvent.send ws (Frame.errorF ErrorType.UPGRADE_REQUIRED),
          OutEvent.close ws 1008 "upgrade_required"]) := by
  unfold validateJoinProtocolCompatibility
  dsimp only [Option.getD]
  rw [if_pos h]

theorem validate_pass (mv ws v : Nat) (h : mv ≤ v) :
    validateJoinProtocolCompatibility (some mv) ws v = (true, []) := by
  unfold validateJoinProtocolCompatibility
  dsimp only [Option.getD]
  rw [if_neg (by omega)]

theorem resolve_ge_one (c : Content) : 1 ≤ resolveClientProtocolVersion c := by
  unfold resolveClientProtocolVersion
  cases hpv : c.protocolVersion with
  | none => exact le_refl 1
  | some v =>
    dsimp only
    split
    · omega
    · exact le_refl 1

/-- C5: the protocol gate.  The resolved client version is the declared
`protocolVersion` when it is a positive integer and 1 otherwise, and is
always at least 1; with the room minimum set, a strictly smaller joiner
version is answered by an UPGRADE_REQUIRED error followed by a forced
close of the connection (code 1008) and the join leaves the room state
unchanged, while a version at least the minimum passes the gate; with
the minimum unset every resolved version passes. -/
theorem protocol_gate_spec :
    (∀ (c : Content) (v : Int), c.protocolVersion = some v → 0 < v →
        resolveClientProtocolVersion c = v.toNat)
    ∧ (∀ (c : Content) (v : Int), c.protocolVersion = some v → v ≤ 0 →
        resolveClientProtocolVersion c = 1)
    ∧ (∀ c : Content, c.protocolVersion = none → resolveClientProtocolVersion c = 1)
    ∧ (∀ c : Content, 1 ≤ resolveClientProtocolVersion c)
    ∧ (∀ (mv ws v : Nat), v < mv →
        validateJoinProtocolCompatibility (some mv) ws v
          = (false, [OutEvent.send ws (Frame.errorF ErrorType.UPGRADE_REQUIRED),
              OutEvent.close ws 1008 "upgrade_required"]))
    ∧ (∀ (mv ws v : Nat), mv ≤ v →
        validateJoinProtocolCompatibility (some mv) ws v = (true, []))
    ∧ (∀ (ws : Nat) (c : Content),
        validateJoinProtocolCompatibility none ws (resolveClientProtocolVersion c)
          = (true, []))
    ∧ (∀ (s : RoomState) (ws : Nat) (m : WSMessage) (c : Content) (now : Nat)
        (fid : String) (mv : Nat),
        s.isRoomClosed = false → m.type = "join" → m.content = some c →
        truthy c.userId = true → truthy c.userName = true → truthy c.role = true →
        ¬ s.users = [] → s.roomMinProtocolVersion = some mv →
        resolveClientProtocolVersion c < mv →
        handleMessage s ws m now fid
          = (s, [OutEvent.send ws (Frame.errorF ErrorType.UPGRADE_REQUIRED),
              OutEvent.close ws 1008 "upgrade_required"])) := by
  refine ⟨?_, ?_, ?_, resolve_ge_one, validate_reject, validate_pass, ?_, ?_⟩
  · intro c v h hpos
    unfold resolveClientProtocolVersion
    rw [h]
    dsimp only
    rw [if_pos hpos]
  · intro c v h hnonpos
    unfold resolveClientProtocolVersion
    rw [h]
    dsimp only
    rw [if_neg (by omega)]
  · intro c h
    unfold resolveClientProtocolVersion
    rw [h]
  · intro ws c
    unfold validateJoinProtocolCompatibility
    dsimp only [Option.getD]
    rw [if_neg (by have := resolve_ge_one c; omega)]
  · intro s ws m c now fid mv hclosed hm hcont hu hn hr husers hmin hlt
    rw [dispatch_join s ws m now fid hm]
    unfold handleJoin
    rw [hcont, hmin]
    dsimp only
    rw [if_neg (by simp [hclosed]), if_neg (fun hn2 => hn2 ⟨hu, hn, hr⟩)]
    rw [if_neg (fun hc2 => hc2.1 (by simp [husers])), validate_reject mv ws _ hlt]
    simp

/-- C5 witness: in the concrete room gated at minimum version 2, a join
declaring version 1 is rejected with UPGRADE_REQUIRED and the connection
is closed, leaving the state unchanged. -/
theorem protocol_gate_spec_witness :
    handleMessage sTwoConns 2
      { type := "join", content := some { userId := some "u3", userName := some "Cyd", role := some "viewer", protocolVersion := some 1 } } 8 "f8"
      = (sTwoConns, [OutEvent.send 2 (Frame.errorF ErrorType.UPGRADE_REQUIRED),
          OutEvent.close 2 1008 "upgrade_required"]) :=
  protocol_gate_spec.2.2.2.2.2.2.2 sTwoConns 2 _ _ 8 "f8" 2
    (by decide) rfl rfl (by decide) (by decide) (by decide) (by decide) (by decide)
    (by decide)

theorem cancel_min (s : RoomState) :
    (cancelPendingCleanup s).roomMinProtocolVersion = s.roomMinProtocolVersion := by
  unfold cancelPendingCleanup; split <;> rfl

theorem sched_min (s : RoomState) (now : Nat) :
    (scheduleEmptyRoomCleanup s now).roomMinProtocolVersion = s.roomMinProtocolVersion := by
  unfold scheduleEmptyRoomCleanup; split <;> rfl

theorem disconnect_min (s : RoomState) (c : Nat) (now : Nat) (fid : String) :
    ((disconnectEvent s c now fid).1).roomMinProtocolVersion = s.roomMinProtocolVersion := by
  unfold disconnectEvent
  dsimp only
  (repeat' split) <;> simp_all [sched_min, sendSys_min]

theorem msg_min_preserved (s : RoomState) (ws : Nat) (m : WSMessage) (now : Nat)
    (fid : String) (h1 : ¬ m.type = "create") (h2 : ¬ m.type = "closeRoom") :
    ((handleMessage s ws m now fid).1).roomMinProtocolVersion = s.roomMinProtocolVersion := by
  by_cases h0 : m.type = ""
  · rw [dispatch_empty s ws m now fid h0]
  by_cases hj : m.type = "join"
  · rw [dispatch_join s ws m now fid hj]
    exact (handleJoin_proj s ws m now fid).2.2.2
  by_cases hch : m.type = "chat"
  · rw [dispatch_chat s ws m now fid hch]
    exact (handleChat_proj s ws m now fid).2.2.2
  by_cases hbg : m.type = "updateBackground"
  · rw [dispatch_updateBackground s ws m now fid hbg]
    exact (handleUpdateBackground_proj s ws m now).2.2.2
  by_cases hmv : m.type = "updateMoveView"
  · rw [dispatch_updateMoveView s ws m now fid hmv]
    exact (handleUpdateMoveView_proj s ws m now).2.2.2
  by_cases hdv : m.type = "deleteMoveView"
  · rw [dispatch_deleteMoveView s ws m now fid hdv]
    exact (handleDeleteMoveView_proj s ws m now).2.2.2
  by_cases huu : m.type = "userUpdate"
  · rw [dispatch_userUpdate s ws m now fid huu]
    exact (handleUserUpdate_proj s ws m now fid).2.2.2
  by_cases hcl : m.type = "clear"
  · rw [dispatch_clear s ws m now fid hcl]
    rfl
  by_cases hdu : m.type = "drawingUpdate"
  · rw [dispatch_drawingUpdate s ws m now fid hdu]
    exact (handleDrawingUpdate_proj s ws m now).2.2.2
  rw [dispatch_unknown s ws m now fid h0 h1 hj hch hbg hmv hdv huu hcl hdu h2]

theorem create_min_host (s : RoomState) (ws : Nat) (m : WSMessage) (now : Nat)
    (fid : String) (c : Content) (hcont : m.content = some c)
    (hu : truthy c.userId = true) (hn : truthy c.userName = true)
    (hr : truthy c.role = true) (hhost : c.role = some "host") :
    ((handleCreate s ws m now fid).1).roomMinProtocolVersion
      = some (resolveClientProtocolVersion c) := by
  unfold handleCreate
  rw [hcont]
  dsimp only
  rw [if_neg (fun hn2 => hn2 ⟨hu, hn, hr⟩), if_neg (fun hn2 => hn2 hhost)]
  (repeat' split) <;> simp_all [sendSys_min, login_min]

theorem closeRoom_min (s : RoomState) (ws : Nat) :
    ((handleCloseRoom s ws).1).roomMinProtocolVersion = s.roomMinProtocolVersion
    ∨ (handleCloseRoom s ws).1 = clearRoomData s := by
  unfold handleCloseRoom
  dsimp only
  (repeat' split) <;> first
    | exact Or.inl rfl
    | exact Or.inr rfl

/-- C3 counterexample: the claim that a second successful create while
`minProtocolVersion` is set leaves it unchanged is false.  In the
reachable state `sTwoConns` the minimum is 2 (set by the host create
with declared version 2); a second successful host create declaring
version 3, processed while a user is still present (so no wipe
happens), overwrites the minimum to 3. -/
theorem min_version_overwritten_cex :
    Reachable "r" sTwoConns
    ∧ sTwoConns.roomMinProtocolVersion = some 2
    ∧ sSecondCreate
        = (step sTwoConns (REvent.message 1 (mkHostCreate "u1" "Ann" (some 3)) 5 "m2")).1
    ∧ sSecondCreate.roomMinProtocolVersion = some 3
    ∧ ¬ sSecondCreate.roomMinProtocolVersion = sTwoConns.roomMinProtocolVersion :=
  ⟨reachable_runEvents "r" _, by decide, rfl, by decide, by decide⟩

/-- C3 amended, stated exhaustively over every command and lifecycle
event: a host create with complete fields always overwrites
`minProtocolVersion` with the creator's resolved version (even when it
is already set); every other create (missing content, incomplete
fields, or a non-host role) leaves it unchanged; a closeRoom wipes it
to unset exactly when the sender is registered as host and leaves it
unchanged in every other case (unregistered sender, missing session,
non-host role); the alarm wipes it to unset exactly when the room has
no connections and leaves it unchanged otherwise; every command of any
other type, and every connect and disconnect, leaves it unchanged. -/
theorem min_version_behavior (s : RoomState) (ws : Nat) (m : WSMessage) (now : Nat)
    (fid : String) :
    (¬ m.type = "create" → ¬ m.type = "closeRoom" →
      ((handleMessage s ws m now fid).1).roomMinProtocolVersion = s.roomMinProtocolVersion)
    ∧ (∀ c : Content, m.type = "create" → m.content = some c →
        truthy c.userId = true → truthy c.userName = true → truthy c.role = true →
        c.role = some "host" →
        ((handleMessage s ws m now fid).1).roomMinProtocolVersion
          = some (resolveClientProtocolVersion c))
    ∧ (m.type = "create" → m.content = none →
        ((handleMessage s ws m now fid).1).roomMinProtocolVersion = s.roomMinProtocolVersion)
    ∧ (∀ c : Content, m.type = "create" → m.content = some c →
        ¬ (truthy c.userId = true ∧ truthy c.userName = true ∧ truthy c.role = true) →
        ((handleMessage s ws m now fid).1).roomMinProtocolVersion = s.roomMinProtocolVersion)
    ∧ (∀ c : Content, m.type = "create" → m.content = some c →
        truthy c.userId = true → truthy c.userName = true → truthy c.role = true →
        ¬ c.role = some "host" →
        ((handleMessage s ws m now fid).1).roomMinProtocolVersion = s.roomMinProtocolVersion)
    ∧ (m.type = "closeRoom" → mapGet s.connectionToUser ws = none →
        ((handleMessage s ws m now fid).1).roomMinProtocolVersion = s.roomMinProtocolVersion)
    ∧ (∀ uid : String, m.type = "closeRoom" → mapGet s.connectionToUser ws = some uid →
        mapGet s.users uid = none →
        ((handleMessage s ws m now fid).1).roomMinProtocolVersion = s.roomMinProtocolVersion)
    ∧ (∀ (uid : String) (user : UserSession), m.type = "closeRoom" →
        mapGet s.connectionToUser ws = some uid → mapGet s.users uid = some user →
        ¬ user.role = "host" →
        ((handleMessage s ws m now fid).1).roomMinProtocolVersion = s.roomMinProtocolVersion)
    ∧ (∀ (uid : String) (user : UserSession), m.type = "closeRoom" →
        mapGet s.connectionToUser ws = some uid → mapGet s.users uid = some user →
        user.role = "host" →
        ((handleMessage s ws m now fid).1).roomMinProtocolVersion = none)
    ∧ (∀ c2 : Nat,
        ((step s (REvent.connect c2)).1).roomMinProtocolVersion = s.roomMinProtocolVersion)
    ∧ (∀ (c2 now2 : Nat) (fid2 : String),
        ((step s (REvent.disconnect c2 now2 fid2)).1).roomMinProtocolVersion
          = s.roomMinProtocolVersion)
    ∧ (¬ s.connections = [] →
        ((step s REvent.alarmFire).1).roomMinProtocolVersion = s.roomMinProtocolVersion)
    ∧ (s.connections = [] →
        ((step s REvent.alarmFire).1).roomMinProtocolVersion = none) := by
  refine ⟨msg_min_preserved s ws m now fid, ?_, ?_, ?_, ?_, ?_, ?_, ?_, ?_, ?_, ?_, ?_, ?_⟩
  · intro c hm hcont hu hn hr hhost
    rw [dispatch_create s ws m now fid hm]
    exact create_min_host s ws m now fid c hcont hu hn hr hhost
  · intro hm hcont
    rw [dispatch_create s ws m now fid hm]
    unfold handleCreate
    rw [hcont]
  · intro c hm hcont hguard
    rw [dispatch_create s ws m now fid hm]
    unfold handleCreate
    rw [hcont]
    dsimp only
    rw [if_pos hguard]
  · intro c hm hcont hu hn hr hnothost
    rw [dispatch_create s ws m now fid hm]
    unfold handleCreate
    rw [hcont]
    dsimp only
    rw [if_neg (fun hn2 => hn2 ⟨hu, hn, hr⟩), if_pos hnothost]
    exact cancel_min s
  · intro hm hnone
    rw [dispatch_closeRoom s ws m now fid hm]
    unfold handleCloseRoom
    simp only [hnone]
  · intro uid hm hreg huser
    rw [dispatch_closeRoom s ws m now fid hm]
    unfold handleCloseRoom
    simp only [hreg]
    simp only [huser]
  · intro uid user hm hreg huser hrole
    rw [dispatch_closeRoom s ws m now fid hm]
    unfold handleCloseRoom
    simp only [hreg]
    simp only [huser]
    rw [if_pos hrole]
  · intro uid user hm hreg huser hrole
    rw [dispatch_closeRoom s ws m now fid hm]
    unfold handleCloseRoom
    simp only [hreg]
    simp only [huser]
    rw [if_neg (fun hn2 => hn2 hrole)]
    rfl
  · intro c2
    exact cancel_min s
  · intro c2 now2 fid2
    exact disconnect_min s c2 now2 fid2
  · intro hne
    unfold step alarmEvent
    dsimp only
    rw [if_pos (by simp [List.isEmpty_iff, hne])]
  · intro hempty
    unfold step alarmEvent
    dsimp only
    rw [if_neg (by simp [List.isEmpty_iff, hempty])]
    rfl

/-- C3 amended witness: the second host create of the concrete scenario
sets the minimum to its resolved version 3. -/
theorem min_version_behavior_witness :
    ((handleMessage sTwoConns 1 (mkHostCreate "u1" "Ann" (some 3)) 5 "m2").1).roomMinProtocolVersion
      = some (resolveClientProtocolVersion
          { userId := some "u1", userName := some "Ann", role := some "host",
            protocolVersion := some 3 }) :=
  (min_version_behavior sTwoConns 1 (mkHostCreate "u1" "Ann" (some 3)) 5 "m2").2.1 _
    rfl rfl (by decide) (by decide) (by decide) rfl

theorem errT_sendSys (s : RoomState) (c : String) (now : Nat) (fid : String) :
    errTargets ((sendSystemMessage s c now fid).2) = [] :=
  errTargets_broadcast _ _ _ rfl

theorem errT_userList (s : RoomState) :
    errTargets (broadcastUserList s) = [] :=
  errTargets_broadcast _ _ _ rfl

theorem errT_login (s : RoomState) (ws : Nat) (a b r : Option String) (pv : Nat)
    (p av : Option String) :
    errTargets ((loginUserSession s ws a b r pv p av).2.2) = []
    ∨ errTargets ((loginUserSession s ws a b r pv p av).2.2) = [ws] := by
  unfold loginUserSession
  split
  · exact Or.inr rfl
  · exact Or.inl rfl

theorem errT_validate (mn : Option Nat) (ws : Nat) (v : Nat) :
    errTargets ((validateJoinProtocolCompatibility mn ws v).2) = []
    ∨ errTargets ((validateJoinProtocolCompatibility mn ws v).2) = [ws] := by
  unfold validateJoinProtocolCompatibility
  dsimp only
  split
  · exact Or.inr rfl
  · exact Or.inl rfl

theorem errT_handleCreate (s : RoomState) (ws : Nat) (m : WSMessage) (now : Nat)
    (fid : String) :
    errTargets ((handleCreate s ws m now fid).2) = []
    ∨ errTargets ((handleCreate s ws m now fid).2) = [ws] := by
  unfold handleCreate
  dsimp only
  (repeat' split) <;>
    first
      | exact Or.inl rfl
      | exact Or.inr rfl
      | exact errT_login _ _ _ _ _ _ _ _
      | (refine Or.inl ?_; simp [errTargets_append, errT_sendSys, errT_userList])

theorem errT_handleJoin (s : RoomState) (ws : Nat) (m : WSMessage) (now : Nat)
    (fid : String) :
    errTargets ((handleJoin s ws m now fid).2) = []
    ∨ errTargets ((handleJoin s ws m now fid).2) = [ws] := by
  unfold handleJoin
  dsimp only
  (repeat' split) <;>
    first
      | exact Or.inl rfl
      | exact Or.inr rfl
      | exact errT_validate _ _ _
      | exact errT_login _ _ _ _ _ _ _ _
      | (refine Or.inl ?_; simp [errTargets, errTargets_append, errT_sendSys, errT_userList])

theorem errT_handleChat (s : RoomState) (ws : Nat) (m : WSMessage) (now : Nat)
    (fid : String) :
    errTargets ((handleChat s ws m now fid).2) = []
    ∨ errTargets ((handleChat s ws m now fid).2) = [ws] := by
  unfold handleChat
  dsimp only
  (repeat' split) <;>
    first
      | exact Or.inl rfl
      | exact Or.inr rfl
      | exact Or.inl (errTargets_broadcast _ _ _ rfl)

theorem errT_handleUpdateBackground (s : RoomState) (ws : Nat) (m : WSMessage) (now : Nat) :
    errTargets ((handleUpdateBackground s ws m now).2) = []
    ∨ errTargets ((handleUpdateBackground s ws m now).2) = [ws] := by
  unfold handleUpdateBackground
  dsimp only
  (repeat' split) <;>
    first
      | exact Or.inl rfl
      | exact Or.inr rfl
      | exact Or.inl (errTargets_broadcast _ _ _ rfl)

theorem errT_handleUpdateMoveView (s : RoomState) (ws : Nat) (m : WSMessage) (now : Nat) :
    errTargets ((handleUpdateMoveView s ws m now).2) = []
    ∨ errTargets ((handleUpdateMoveView s ws m now).2) = [ws] := by
  unfold handleUpdateMoveView
  dsimp only
  (repeat' split) <;>
    first
      | exact Or.inl rfl
      | exact Or.inr rfl
      | exact Or.inl (errTargets_broadcast _ _ _ rfl)

theorem errT_handleDeleteMoveView (s : RoomState) (ws : Nat) (m : WSMessage) (now : Nat) :
    errTargets ((handleDeleteMoveView s ws m now).2) = []
    ∨ errTargets ((handleDeleteMoveView s ws m now).2) = [ws] := by
  unfold handleDeleteMoveView
  dsimp only
  (repeat' split) <;>
    first
      | exact Or.inl rfl
      | exact Or.inr rfl
      | exact Or.inl (errTargets_broadcast _ _ _ rfl)

theorem errT_handleDrawingUpdate (s : RoomState) (ws : Nat) (m : WSMessage) (now : Nat) :
    errTargets ((handleDrawingUpdate s ws m now).2) = []
    ∨ errTargets ((handleDrawingUpdate s ws m now).2) = [ws] := by
  unfold handleDrawingUpdate
  dsimp only
  (repeat' split) <;>
    first
      | exact Or.inl rfl
      | exact Or.inr rfl
      | exact Or.inl (errTargets_broadcast _ _ _ rfl)

theorem errT_handleUserUpdate (s : RoomState) (ws : Nat) (m : WSMessage) (now : Nat)
    (fid : String) :
    errTargets ((handleUserUpdate s ws m now fid).2) = []
    ∨ errTargets ((handleUserUpdate s ws m now fid).2) = [ws] := by
  unfold handleUserUpdate
  dsimp only
  (repeat' split) <;>
    first
      | exact Or.inl rfl
      | exact Or.inr rfl
      | (refine Or.inl ?_; simp [errTargets_append, errT_sendSys, errT_userList])

theorem errT_handleClear (s : RoomState) :
    errTargets ((handleClear s).2) = [] :=
  errTargets_broadcast _ _ _ rfl

theorem errT_handleCloseRoom (s : RoomState) (ws : Nat) :
    errTargets ((handleCloseRoom s ws).2) = []
    ∨ errTargets ((handleCloseRoom s ws).2) = [ws] := by
  unfold handleCloseRoom
  dsimp only
  (repeat' split) <;>
    first
      | exact Or.inl rfl
      | exact Or.inr rfl
      | (refine Or.inl ?_;
          simp [errTargets, errTargets_append, errTargets_broadcast, errTargets_map_close,
            isErrFrame])

theorem errT_handleMessage (s : RoomState) (ws : Nat) (m : WSMessage) (now : Nat)
    (fid : String) :
    errTargets ((handleMessage s ws m now fid).2) = []
    ∨ errTargets ((handleMessage s ws m now fid).2) = [ws] := by
  by_cases h0 : m.type = ""
  · rw [dispatch_empty s ws m now fid h0]
    exact Or.inr rfl
  by_cases hcr : m.type = "create"
  · rw [dispatch_create s ws m now fid hcr]
    exact errT_handleCreate s ws m now fid
  by_cases hj : m.type = "join"
  · rw [dispatch_join s ws m now fid hj]
    exact errT_handleJoin s ws m now fid
  by_cases hch : m.type = "chat"
  · rw [dispatch_chat s ws m now fid hch]
    exact errT_handleChat s ws m now fid
  by_cases hbg : m.type = "updateBackground"
  · rw [dispatch_updateBackground s ws m now fid hbg]
    exact errT_handleUpdateBackground s ws m now
  by_cases hmv : m.type = "updateMoveView"
  · rw [dispatch_updateMoveView s ws m now fid hmv]
    exact errT_handleUpdateMoveView s ws m now
  by_cases hdv : m.type = "deleteMoveView"
  · rw [dispatch_deleteMoveView s ws m now fid hdv]
    exact errT_handleDeleteMoveView s ws m now
  by_cases huu : m.type = "userUpdate"
  · rw [dispatch_userUpdate s ws m now fid huu]
    exact errT_handleUserUpdate s ws m now fid
  by_cases hcl : m.type = "clear"
  · rw [dispatch_clear s ws m now fid hcl]
    exact Or.inl (errT_handleClear s)
  by_cases hdu : m.type = "drawingUpdate"
  · rw [dispatch_drawingUpdate s ws m now fid hdu]
    exact errT_handleDrawingUpdate s ws m now
  by_cases hcc : m.type = "closeRoom"
  · rw [dispatch_closeRoom s ws m now fid hcc]
    exact errT_handleCloseRoom s ws
  rw [dispatch_unknown s ws m now fid h0 hcr hj hch hbg hmv hdv huu hcl hdu hcc]
  exact Or.inl rfl

/-- C7 counterexample: the claim that no recognized command completes
with neither a state change nor an error frame is false.  In the
reachable state `sTwoConns`, the live but unregistered connection 1
sends a closeRoom frame (a recognized command type): the handler
returns with the state unchanged and an empty output list, so no error
frame is produced either. -/
theorem silent_closeRoom_cex :
    Reachable "r" sTwoConns
    ∧ 1 ∈ sTwoConns.connections
    ∧ handleMessage sTwoConns 1 { type := "closeRoom" } 7 "f7" = (sTwoConns, []) :=
  ⟨reachable_runEvents "r" _, by decide, by decide⟩

/-- C7 amended: whenever a command produces error frames at all, it
produces exactly one, addressed to the originating connection (errors
are never broadcast); and the no-silent-failure half of the claim must
except, besides unrecognized types, the silent guards proved here one
by one: an unregistered sender in closeRoom, updateBackground,
updateMoveView, deleteMoveView and drawingUpdate, and a missing
content payload in drawingUpdate, each of which completes with no
output at all and the state returned unchanged.  (The missing-content
paths of the other update handlers are not exceptions to the original
claim: they run after the rate limiter, whose counter they have
already changed.) -/
theorem error_frames_to_sender_only :
    (∀ (s : RoomState) (ws : Nat) (m : WSMessage) (now : Nat) (fid : String),
        errTargets ((handleMessage s ws m now fid).2) = []
        ∨ errTargets ((handleMessage s ws m now fid).2) = [ws])
    ∧ (∀ (s : RoomState) (ws : Nat) (m : WSMessage) (now : Nat) (fid : String),
        m.type = "closeRoom" → mapGet s.connectionToUser ws = none →
        handleMessage s ws m now fid = (s, []))
    ∧ (∀ (s : RoomState) (ws : Nat) (m : WSMessage) (now : Nat) (fid : String),
        m.type = "updateBackground" → mapGet s.connectionToUser ws = none →
        handleMessage s ws m now fid = (s, []))
    ∧ (∀ (s : RoomState) (ws : Nat) (m : WSMessage) (now : Nat) (fid : String),
        m.type = "updateMoveView" → mapGet s.connectionToUser ws = none →
        handleMessage s ws m now fid = (s, []))
    ∧ (∀ (s : RoomState) (ws : Nat) (m : WSMessage) (now : Nat) (fid : String),
        m.type = "deleteMoveView" → mapGet s.connectionToUser ws = none →
        handleMessage s ws m now fid = (s, []))
    ∧ (∀ (s : RoomState) (ws : Nat) (m : WSMessage) (now : Nat) (fid : String)
        (c : Content),
        m.type = "drawingUpdate" → m.content = some c →
        mapGet s.connectionToUser ws = none →
        handleMessage s ws m now fid = (s, []))
    ∧ (∀ (s : RoomState) (ws : Nat) (m : WSMessage) (now : Nat) (fid : String),
        m.type = "drawingUpdate" → m.content = none →
        handleMessage s ws m now fid = (s, [])) := by
  refine ⟨errT_handleMessage, ?_, ?_, ?_, ?_, ?_, ?_⟩
  · intro s ws m now fid hm hnone
    rw [dispatch_closeRoom s ws m now fid hm]
    unfold handleCloseRoom
    simp only [hnone]
  · intro s ws m now fid hm hnone
    rw [dispatch_updateBackground s ws m now fid hm]
    unfold handleUpdateBackground
    simp only [hnone]
  · intro s ws m now fid hm hnone
    rw [dispatch_updateMoveView s ws m now fid hm]
    unfold handleUpdateMoveView
    simp only [hnone]
  · intro s ws m now fid hm hnone
    rw [dispatch_deleteMoveView s ws m now fid hm]
    unfold handleDeleteMoveView
    simp only [hnone]
  · intro s ws m now fid c hm hcont hnone
    rw [dispatch_drawingUpdate s ws m now fid hm]
    unfold handleDrawingUpdate
    rw [hcont]
    simp only [hnone]
  · intro s ws m now fid hm hcont
    rw [dispatch_drawingUpdate s ws m now fid hm]
    unfold handleDrawingUpdate
    rw [hcont]

/-- C7 amended witness: in the concrete room, the unregistered
connection 5 sending closeRoom gets no error and changes nothing, and
likewise for an updateMoveView from an unregistered sender. -/
theorem error_frames_to_sender_only_witness :
    handleMessage sTwoConns 5 { type := "closeRoom" } 7 "f7" = (sTwoConns, [])
    ∧ handleMessage sTwoConns 5 { type := "updateMoveView", content := some { id := some "a" } } 7 "f7" = (sTwoConns, []) :=
  ⟨error_frames_to_sender_only.2.1 sTwoConns 5 { type := "closeRoom" } 7 "f7" rfl (by decide),
   error_frames_to_sender_only.2.2.2.1 sTwoConns 5
     { type := "updateMoveView", content := some { id := some "a" } } 7 "f7" rfl (by decide)⟩

theorem listMoveView_mem (st : List (SKey × StoredVal)) (a : String) (v : StoredVal)
    (h : (SKey.moveView a, v) ∈ st) : v ∈ listMoveView st := by
  unfold listMoveView
  exact List.mem_map_of_mem _ (List.mem_filter.mpr ⟨h, rfl⟩)

theorem join_initSetup (s : RoomState) (ws2 : Nat) (m2 : WSMessage) (c2 : Content)
    (now2 : Nat) (fid2 : String)
    (hclosed : s.isRoomClosed = false) (hm2 : m2.type = "join")
    (hcont2 : m2.content = some c2)
    (hu2 : truthy c2.userId = true) (hn2 : truthy c2.userName = true)
    (hr2 : truthy c2.role = true) (husers : ¬ s.users = [])
    (hcompat : s.roomMinProtocolVersion.getD 1 ≤ resolveClientProtocolVersion c2) :
    ∃ (users : List UserSession) (rest : List OutEvent),
      (handleMessage s ws2 m2 now2 fid2).2
        = OutEvent.send ws2 (Frame.initSetupF s.messages users s.fileName
            (s.roomMinProtocolVersion.getD 1) (listMoveView s.storage)
            (mapGet s.storage SKey.background) (listDrawing s.storage)) :: rest := by
  rw [dispatch_join s ws2 m2 now2 fid2 hm2]
  unfold handleJoin
  rw [hcont2]
  dsimp only
  rw [if_neg (by simp [hclosed]), if_neg (fun hn => hn ⟨hu2, hn2, hr2⟩)]
  rw [if_neg (fun hc => hc.1 (by simp [husers]))]
  have hv : validateJoinProtocolCompatibility s.roomMinProtocolVersion ws2
      (resolveClientProtocolVersion c2) = (true, []) := by
    unfold validateJoinProtocolCompatibility
    dsimp only
    rw [if_neg (by omega)]
  rw [hv]
  dsimp only
  rw [if_neg (fun hh => hh rfl)]
  unfold loginUserSession
  rw [if_neg (fun hn => hn ⟨hu2, hn2⟩)]
  exact ⟨_, _, rfl⟩

/-- C8: the move-view round trip.  A successful updateMoveView for id a
with model M from a registered connection, followed immediately by a
successful join of a new connection, produces an initSetup reply to the
joiner whose moveModels list contains (as produced by the prefix scan)
the stored record with id a, model M and the timestamp of the update. -/
theorem moveview_roundtrip (s : RoomState) (ws ws2 : Nat) (uid a M : String)
    (c c2 : Content) (m m2 : WSMessage) (now1 now2 : Nat) (fid1 fid2 : String)
    (hclosed : s.isRoomClosed = false)
    (hreg : mapGet s.connectionToUser ws = some uid)
    (hlim : (isRateLimited s.drawingLimiter uid now1).1 = false)
    (hm : m.type = "updateMoveView") (hcont : m.content = some c)
    (hid : c.id = some a) (hmodel : c.model = some M)
    (husers : ¬ s.users = [])
    (hm2 : m2.type = "join") (hcont2 : m2.content = some c2)
    (hu2 : truthy c2.userId = true) (hn2 : truthy c2.userName = true)
    (hr2 : truthy c2.role = true)
    (hcompat : s.roomMinProtocolVersion.getD 1 ≤ resolveClientProtocolVersion c2) :
    ∃ (msgs : List ChatMessage) (users : List UserSession) (fn : Option String)
      (rv : Nat) (mvs : List StoredVal) (bg : Option StoredVal)
      (dws : List StoredVal) (rest : List OutEvent),
      (handleMessage (handleMessage s ws m now1 fid1).1 ws2 m2 now2 fid2).2
        = OutEvent.send ws2 (Frame.initSetupF msgs users fn rv mvs bg dws) :: rest
      ∧ StoredVal.meta { id := some a, model := some M, timestamp := now1 } ∈ mvs := by
  have hs1 : (handleMessage s ws m now1 fid1).1
      = { s with drawingLimiter := (isRateLimited s.drawingLimiter uid now1).2, storage := mapSet s.storage (SKey.moveView (jsStr c.id)) (StoredVal.meta { id := c.id, model := c.model, timestamp := now1 }) } := by
    rw [dispatch_updateMoveView s ws m now1 fid1 hm]
    unfold handleUpdateMoveView
    simp only [hreg]
    rw [if_neg (by simp [hlim])]
    simp only [hcont]
    split
    · rfl
    · rfl
  rw [hs1]
  obtain ⟨users, rest, hout⟩ :=
    join_initSetup
      { s with drawingLimiter := (isRateLimited s.drawingLimiter uid now1).2, storage := mapSet s.storage (SKey.moveView (jsStr c.id)) (StoredVal.meta { id := c.id, model := c.model, timestamp := now1 }) }
      ws2 m2 c2 now2 fid2 hclosed hm2 hcont2 hu2 hn2 hr2 husers hcompat
  refine ⟨_, users, _, _, _, _, _, rest, hout, ?_⟩
  rw [hid, hmodel]
  exact listMoveView_mem _ a _ (mapSet_mem _ _ _)

/-- C8 witness: in the concrete host-only room, updating move view a
with model MX and then joining as u2 yields an initSetup whose
moveModels contains the record for a. -/
theorem moveview_roundtrip_witness :
    ∃ (msgs : List ChatMessage) (users : List UserSession) (fn : Option String)
      (rv : Nat) (mvs : List StoredVal) (bg : Option StoredVal)
      (dws : List StoredVal) (rest : List OutEvent),
      (handleMessage
        (handleMessage sHostOnly 0
          { type := "updateMoveView",
            content := some { id := some "a", model := some "MX" } } 11 "g1").1
        1 { type := "join", content := some { userId := some "u2", userName := some "Bob", role := some "editor", protocolVersion := some 1 } }
        12 "g2").2
        = OutEvent.send 1 (Frame.initSetupF msgs users fn rv mvs bg dws) :: rest
      ∧ StoredVal.meta { id := some "a", model := some "MX", timestamp := 11 } ∈ mvs :=
  moveview_roundtrip sHostOnly 0 1 "u1" "a" "MX" _ _ _ _ 11 12 "g1" "g2"
    (by decide) (by decide) (by decide) rfl rfl rfl rfl (by decide) rfl rfl
    (by decide) (by decide) (by decide) (by decide)

theorem isRateLimited_deny (rl : RateLimiter) (key : String) (rec : RLRecord) (now : Nat)
    (hrec : mapGet rl.requestCounts key = some rec)
    (hcnt : rl.maxRequests ≤ rec.count)
    (hwin : now - rec.timestamp ≤ rl.windowMs) :
    isRateLimited rl key now = (true, rl) := by
  unfold isRateLimited
  rw [hrec]
  dsimp only
  rw [if_neg (by omega), if_pos hcnt]

theorem isRateLimited_reset (rl : RateLimiter) (key : String) (rec : RLRecord) (now : Nat)
    (hrec : mapGet rl.requestCounts key = some rec)
    (hwin : rl.windowMs < now - rec.timestamp) :
    isRateLimited rl key now = (false, { rl with requestCounts := mapSet rl.requestCounts key { count := 1, timestamp := now } }) := by
  unfold isRateLimited
  rw [hrec]
  dsimp only
  rw [if_pos (by omega)]

theorem isRateLimited_incr (rl : RateLimiter) (key : String) (rec : RLRecord) (now : Nat)
    (hrec : mapGet rl.requestCounts key = some rec)
    (hwin : now - rec.timestamp ≤ rl.windowMs)
    (hcnt : rec.count < rl.maxRequests) :
    isRateLimited rl key now = (false, { rl with requestCounts := mapSet rl.requestCounts key { count := rec.count + 1, timestamp := rec.timestamp } }) := by
  unfold isRateLimited
  rw [hrec]
  dsimp only
  rw [if_neg (by omega), if_neg (by omega)]

theorem handleChat_denied (s : RoomState) (ws : Nat) (uid : String) (rec : RLRecord)
    (now : Nat) (fid : String) (m : WSMessage)
    (hm : m.type = "chat")
    (hreg : mapGet s.connectionToUser ws = some uid)
    (hrec : mapGet s.messageLimiter.requestCounts uid = some rec)
    (hcnt : s.messageLimiter.maxRequests ≤ rec.count)
    (hwin : now - rec.timestamp ≤ s.messageLimiter.windowMs) :
    handleMessage s ws m now fid
      = (s, [OutEvent.send ws (Frame.errorF ErrorType.RATE_LIMITED)]) := by
  rw [dispatch_chat s ws m now fid hm]
  unfold handleChat
  rw [hreg]
  dsimp only
  rw [isRateLimited_deny s.messageLimiter uid rec now hrec hcnt hwin]
  dsimp only
  rw [if_pos rfl, eta_messageLimiter]

theorem handleChat_success_reset (s : RoomState) (ws : Nat) (uid : String)
    (user : UserSession) (rec : RLRecord) (now : Nat) (fid : String) (m : WSMessage)
    (text : String)
    (hm : m.type = "chat")
    (hreg : mapGet s.connectionToUser ws = some uid)
    (huser : mapGet s.users uid = some user)
    (hrec : mapGet s.messageLimiter.requestCounts uid = some rec)
    (hwin : s.messageLimiter.windowMs < now - rec.timestamp)
    (htext : m.content.bind (fun x => x.chatContent) = some (ChatVal.str text))
    (hne : ¬ text = "") (hlen : text.length ≤ 1000) :
    ((handleMessage s ws m now fid).1).messages
      = s.messages ++ [{ id := fid, userId := user.userId, userName := user.userName, content := sanitizeContent text, timestamp := now, messageType := MessageType.text }]
    ∧ mapGet ((handleMessage s ws m now fid).1).messageLimiter.requestCounts uid
        = some { count := 1, timestamp := now } := by
  rw [dispatch_chat s ws m now fid hm]
  unfold handleChat
  rw [hreg]
  dsimp only
  rw [isRateLimited_reset s.messageLimiter uid rec now hrec hwin]
  dsimp only
  rw [if_neg (by simp)]
  simp only [huser, htext]
  rw [if_neg hne, if_neg (by omega)]
  exact ⟨rfl, mapGet_mapSet_self _ _ _⟩

theorem limiterRun_length (rl : RateLimiter) (key : String) (ts : List Nat) :
    (limiterRun rl key ts).1.length = ts.length := by
  induction ts generalizing rl with
  | nil => rfl
  | cons t ts ih =>
    show ((isRateLimited rl key t).1 :: (limiterRun (isRateLimited rl key t).2 key ts).1).length
      = ts.length + 1
    rw [List.length_cons, ih]

theorem limiterRun_saturate (key : String) (t0 : Nat) (ts : List Nat) :
    ∀ (rl : RateLimiter) (c : Nat),
      rl.maxRequests = 10 → rl.windowMs = 5000 →
      mapGet rl.requestCounts key = some { count := c, timestamp := t0 } →
      1 ≤ c → c ≤ 10 →
      (∀ t ∈ ts, t0 ≤ t ∧ t ≤ t0 + 5000) →
      (∀ i (hi : i < (limiterRun rl key ts).1.length),
          (limiterRun rl key ts).1.get ⟨i, hi⟩ = decide (10 ≤ c + i))
      ∧ mapGet (limiterRun rl key ts).2.requestCounts key
          = some { count := min (c + ts.length) 10, timestamp := t0 }
      ∧ (limiterRun rl key ts).2.maxRequests = 10
      ∧ (limiterRun rl key ts).2.windowMs = 5000 := by
  induction ts with
  | nil =>
    intro rl c h1 h2 h3 h4 h5 h6
    refine ⟨?_, ?_, h1, h2⟩
    · intro i hi
      exact absurd hi (by simp [limiterRun])
    · have hmin : min (c + ([] : List Nat).length) 10 = c := by
        simp
        omega
      rw [show (limiterRun rl key []).2 = rl from rfl, hmin]
      exact h3
  | cons t ts ih =>
    intro rl c h1 h2 h3 h4 h5 h6
    have hw : t - t0 ≤ rl.windowMs := by
      have := (h6 t (List.mem_cons_self t ts)).2
      rw [h2]
      omega
    have hstep : limiterRun rl key (t :: ts)
        = ((isRateLimited rl key t).1 :: (limiterRun (isRateLimited rl key t).2 key ts).1,
           (limiterRun (isRateLimited rl key t).2 key ts).2) := rfl
    have h6t : ∀ t2 ∈ ts, t0 ≤ t2 ∧ t2 ≤ t0 + 5000 :=
      fun t2 ht2 => h6 t2 (List.mem_cons_of_mem t ht2)
    by_cases hc10 : 10 ≤ c
    · have hceq : c = 10 := le_antisymm h5 hc10
      have hrl : isRateLimited rl key t = (true, rl) :=
        isRateLimited_deny rl key _ t h3 (by rw [h1]; dsimp only; omega) hw
      obtain ⟨ihres, ihrec, ihmax, ihwin⟩ := ih rl c h1 h2 h3 h4 h5 h6t
      rw [hstep, hrl]
      refine ⟨?_, ?_, ihmax, ihwin⟩
      · intro i hi
        cases i with
        | zero =>
          simp only [List.get]
          symm
          rw [decide_eq_true_eq]
          omega
        | succ i =>
          simp only [List.get]
          rw [ihres i (by simpa using hi), decide_eq_decide]
          omega
      · rw [ihrec]
        have : min (c + ts.length) 10 = min (c + (ts.length + 1)) 10 := by omega
        rw [this, List.length_cons]
    · have hlt : c < 10 := by omega
      have hrl : isRateLimited rl key t
          = (false, { rl with requestCounts := mapSet rl.requestCounts key { count := c + 1, timestamp := t0 } }) :=
        isRateLimited_incr rl key _ t h3 hw (by rw [h1]; dsimp only; omega)
      obtain ⟨ihres, ihrec, ihmax, ihwin⟩ :=
        ih { rl with requestCounts := mapSet rl.requestCounts key { count := c + 1, timestamp := t0 } }
          (c + 1) h1 h2 (mapGet_mapSet_self _ _ _) (by omega) (by omega) h6t
      rw [hstep, hrl]
      refine ⟨?_, ?_, ihmax, ihwin⟩
      · intro i hi
        cases i with
        | zero =>
          simp only [List.get]
          symm
          rw [decide_eq_false_iff_not]
          omega
        | succ i =>
          simp only [List.get]
          rw [ihres i (by simpa using hi)]
          have hcc : c + 1 + i = c + (i + 1) := by omega
          rw [hcc]
      · rw [ihrec]
        have : min (c + 1 + ts.length) 10 = min (c + (ts.length + 1)) 10 := by omega
        rw [this, List.length_cons]

/-- C4: the chat rate limit, for the limiter configured with 10
requests per 5000 ms.  For a sequence of calls of one subject all
within one window (first call at t0 opening it), the i-th call
(0-based) is allowed exactly when i < 10, so calls 1..10 are allowed
and the 11th onward are denied; a denied call returns the limiter
unchanged (the window is not extended); a chat command arriving while
the subject's record is saturated and within the window is answered
with a single rate_limited error frame and the whole room state,
message log included, is returned unchanged; and the first chat after
the window has elapsed opens a fresh window (count 1 at the new time)
and appends its message to the log. -/
theorem chat_rate_limit_window (uid : String) (t0 : Nat) (ts : List Nat)
    (hts : ∀ t ∈ ts, t0 ≤ t ∧ t ≤ t0 + 5000) :
    (∀ i (hi : i < (limiterRun (freshLimiter 10 5000) uid (t0 :: ts)).1.length),
        (limiterRun (freshLimiter 10 5000) uid (t0 :: ts)).1.get ⟨i, hi⟩
          = decide (10 ≤ i))
    ∧ (∀ t2, t0 + 5000 < t2 →
        (isRateLimited (limiterRun (freshLimiter 10 5000) uid (t0 :: ts)).2 uid t2).1
          = false)
    ∧ (∀ (rl : RateLimiter) (rec : RLRecord) (now : Nat),
        mapGet rl.requestCounts uid = some rec → rl.maxRequests ≤ rec.count →
        now - rec.timestamp ≤ rl.windowMs →
        isRateLimited rl uid now = (true, rl))
    ∧ (∀ (s : RoomState) (ws : Nat) (rec : RLRecord) (now : Nat) (fid : String)
        (m : WSMessage),
        m.type = "chat" →
        mapGet s.connectionToUser ws = some uid →
        mapGet s.messageLimiter.requestCounts uid = some rec →
        s.messageLimiter.maxRequests ≤ rec.count →
        now - rec.timestamp ≤ s.messageLimiter.windowMs →
        handleMessage s ws m now fid
          = (s, [OutEvent.send ws (Frame.errorF ErrorType.RATE_LIMITED)]))
    ∧ (∀ (s : RoomState) (ws : Nat) (user : UserSession) (rec : RLRecord) (now : Nat)
        (fid : String) (m : WSMessage) (text : String),
        m.type = "chat" →
        mapGet s.connectionToUser ws = some uid →
        mapGet s.users uid = some user →
        mapGet s.messageLimiter.requestCounts uid = some rec →
        s.messageLimiter.windowMs < now - rec.timestamp →
        m.content.bind (fun x => x.chatContent) = some (ChatVal.str text) →
        ¬ text = "" → text.length ≤ 1000 →
        ((handleMessage s ws m now fid).1).messages
            = s.messages ++ [{ id := fid, userId := user.userId, userName := user.userName, content := sanitizeContent text, timestamp := now, messageType := MessageType.text }]
        ∧ mapGet ((handleMessage s ws m now fid).1).messageLimiter.requestCounts uid
            = some { count := 1, timestamp := now }) := by
  have hrec1 : mapGet (mapSet ([] : List (String × RLRecord)) uid
      { count := 1, timestamp := t0 }) uid = some { count := 1, timestamp := t0 } :=
    mapGet_mapSet_self [] uid _
  obtain ⟨res, rec, hmax, hwin⟩ :=
    limiterRun_saturate uid t0 ts
      { requestCounts := mapSet [] uid { count := 1, timestamp := t0 },
        maxRequests := 10, windowMs := 5000 }
      1 rfl rfl hrec1 (le_refl 1) (by omega) hts
  have hstep : limiterRun (freshLimiter 10 5000) uid (t0 :: ts)
      = (false :: (limiterRun
          { requestCounts := mapSet [] uid { count := 1, timestamp := t0 },
            maxRequests := 10, windowMs := 5000 } uid ts).1,
         (limiterRun
          { requestCounts := mapSet [] uid { count := 1, timestamp := t0 },
            maxRequests := 10, windowMs := 5000 } uid ts).2) := rfl
  refine ⟨?_, ?_, ?_, ?_, ?_⟩
  · intro i hi
    show (false :: (limiterRun
        { requestCounts := mapSet [] uid { count := 1, timestamp := t0 },
          maxRequests := 10, windowMs := 5000 } uid ts).1).get ⟨i, hi⟩
      = decide (10 ≤ i)
    cases i with
    | zero =>
      simp only [List.get]
      symm
      rw [decide_eq_false_iff_not]
      omega
    | succ i =>
      simp only [List.get]
      rw [res i (by rw [limiterRun_length] at hi ⊢; rw [List.length_cons] at hi; omega),
        decide_eq_decide]
      omega
  · intro t2 ht2
    show (isRateLimited (limiterRun
        { requestCounts := mapSet [] uid { count := 1, timestamp := t0 },
          maxRequests := 10, windowMs := 5000 } uid ts).2 uid t2).1 = false
    rw [isRateLimited_reset _ uid _ t2 rec (by rw [hwin]; dsimp only; omega)]
  · exact fun rl rec2 now => isRateLimited_deny rl uid rec2 now
  · exact fun s ws rec2 now fid m hm hreg hrec2 hcnt hwin2 =>
      handleChat_denied s ws uid rec2 now fid m hm hreg hrec2 hcnt hwin2
  · exact fun s ws user rec2 now fid m text hm hreg huser hrec2 hwin2 htext hne hlen =>
      handleChat_success_reset s ws uid user rec2 now fid m text hm hreg huser hrec2
        hwin2 htext hne hlen

/-- C4 witness: after three calls inside one window opened at time 0,
a call at time 6000 (after the window has elapsed) is allowed again. -/
theorem chat_rate_limit_window_witness :
    (isRateLimited (limiterRun (freshLimiter 10 5000) "u1" (0 :: [1, 2])).2 "u1" 6000).1
      = false :=
  (chat_rate_limit_window "u1" 0 [1, 2] (by decide)).2.1 6000 (by decide)

/-- C10: a chat frame from a registered user whose content fails
validation (absent, not a string, empty, or over 1000 characters)
still consumes one unit of that user's chat budget, because the
limiter check runs before content validation: the count is incremented
while the log is unchanged and the only output is a single
format-or-length error frame; consequently (last conjunct) once the
count has reached the maximum, a subsequent valid chat inside the same
window is answered with rate_limited. -/
theorem invalid_chat_consumes_budget (s : RoomState) (ws : Nat) (uid : String)
    (user : UserSession) (rec : RLRecord) (now : Nat) (fid : String) (m : WSMessage)
    (hm : m.type = "chat")
    (hreg : mapGet s.connectionToUser ws = some uid)
    (huser : mapGet s.users uid = some user)
    (hrec : mapGet s.messageLimiter.requestCounts uid = some rec)
    (hcnt : rec.count < s.messageLimiter.maxRequests)
    (hwin : now - rec.timestamp ≤ s.messageLimiter.windowMs)
    (hinv : invalidChatPayload (m.content.bind (fun x => x.chatContent))) :
    ((handleMessage s ws m now fid).1).messages = s.messages
    ∧ mapGet ((handleMessage s ws m now fid).1).messageLimiter.requestCounts uid
        = some { count := rec.count + 1, timestamp := rec.timestamp }
    ∧ (∃ e, (handleMessage s ws m now fid).2 = [OutEvent.send ws (Frame.errorF e)]
        ∧ (e = ErrorType.INVALID_FORMAT ∨ e = ErrorType.MESSAGE_TOO_LONG))
    ∧ (∀ (s2 : RoomState) (ws2 : Nat) (rec2 : RLRecord) (now2 : Nat) (fid2 : String)
        (m2 : WSMessage),
        m2.type = "chat" → mapGet s2.connectionToUser ws2 = some uid →
        mapGet s2.messageLimiter.requestCounts uid = some rec2 →
        s2.messageLimiter.maxRequests ≤ rec2.count →
        now2 - rec2.timestamp ≤ s2.messageLimiter.windowMs →
        handleMessage s2 ws2 m2 now2 fid2
          = (s2, [OutEvent.send ws2 (Frame.errorF ErrorType.RATE_LIMITED)])) := by
  have H : ((handleMessage s ws m now fid).1).messages = s.messages
      ∧ mapGet ((handleMessage s ws m now fid).1).messageLimiter.requestCounts uid
          = some { count := rec.count + 1, timestamp := rec.timestamp }
      ∧ (∃ e, (handleMessage s ws m now fid).2 = [OutEvent.send ws (Frame.errorF e)]
          ∧ (e = ErrorType.INVALID_FORMAT ∨ e = ErrorType.MESSAGE_TOO_LONG)) := by
    rw [dispatch_chat s ws m now fid hm]
    unfold handleChat
    rw [hreg]
    dsimp only
    rw [isRateLimited_incr s.messageLimiter uid rec now hrec hwin hcnt]
    dsimp only
    rw [if_neg (by simp)]
    simp only [huser]
    rcases hp : m.content.bind (fun x => x.chatContent) with _ | v
    · simp only [hp]
      exact ⟨by trivial, mapGet_mapSet_self _ _ _, ErrorType.INVALID_FORMAT, rfl, Or.inl rfl⟩
    · rw [hp] at hinv
      cases v with
      | nonString =>
        simp only [hp]
        exact ⟨by trivial, mapGet_mapSet_self _ _ _, ErrorType.INVALID_FORMAT, rfl, Or.inl rfl⟩
      | str t =>
        simp only [hp]
        by_cases ht : t = ""
        · rw [if_pos ht]
          exact ⟨by trivial, mapGet_mapSet_self _ _ _, ErrorType.INVALID_FORMAT, rfl, Or.inl rfl⟩
        · have hlen : t.length > 1000 := by
            unfold invalidChatPayload at hinv
            exact hinv.resolve_left ht
          rw [if_neg ht, if_pos hlen]
          exact ⟨by trivial, mapGet_mapSet_self _ _ _, ErrorType.MESSAGE_TOO_LONG, rfl, Or.inr rfl⟩
  exact ⟨H.1, H.2.1, H.2.2,
    fun s2 ws2 rec2 now2 fid2 m2 hm2 hreg2 hrec2 hcnt2 hwin2 =>
      handleChat_denied s2 ws2 uid rec2 now2 fid2 m2 hm2 hreg2 hrec2 hcnt2 hwin2⟩

/-- C10 witness: in the concrete room whose chat window for u1 was
opened at time 100 with count 1, a chat frame with no content at time
200 leaves the log unchanged but bumps the count to 2. -/
theorem invalid_chat_consumes_budget_witness :
    ((handleMessage sChatted 0 { type := "chat" } 200 "c2").1).messages = sChatted.messages
    ∧ mapGet ((handleMessage sChatted 0 { type := "chat" } 200 "c2").1).messageLimiter.requestCounts "u1"
        = some { count := 2, timestamp := 100 } :=
  have h := invalid_chat_consumes_budget sChatted 0 "u1"
    { userId := "u1", userName := "Ann", role := "host", roomId := "r",
      protocolVersion := 1, platform := none, appVersion := none }
    { count := 1, timestamp := 100 } 200 "c2" { type := "chat" } rfl (by decide)
    (by decide) (by decide) (by decide) (by decide) trivial
  ⟨h.1, h.2.1⟩
